import Mathlib

/-!
Shallow embedding of the VTU wallet / purchase-orchestration core
(wallet ledger, fraud policy, purchase orchestrators for airtime, data and
electricity, the VTPass webhook handler, and the pending-transaction
requery sweep), together with theorems settling the specification claims.

Monetary values (Python `Decimal`) are modelled as exact rationals; the
2-decimal-place quantization performed by the Django models is modelled
explicitly with round-half-to-even, the default rounding of `Decimal`.
Database writes are modelled as explicit state passing; a Django
`ValidationError` / `ValueError` raised before a write is an `Except.error`
that leaves the state unchanged (the enclosing atomic block rolls back).
-/

namespace VTU

/-- Monetary values: Python `Decimal` modelled as exact rationals. -/
abbrev Money := ℚ

/-- `wallet/models.py`: `MAX_TRANSACTION = Decimal("100000")`. -/
def MAX_TRANSACTION : Money := 100000

/-- `wallet/models.py`: `MAX_BALANCE = Decimal("1000000")`. -/
def MAX_BALANCE : Money := 1000000

/-- Round a rational to the nearest integer, ties to even
(`decimal.ROUND_HALF_EVEN`, the default context rounding used by
`Decimal.quantize`). -/
def roundHalfEven (q : ℚ) : ℤ :=
  if q - (⌊q⌋ : ℚ) < 1/2 then ⌊q⌋
  else if 1/2 < q - (⌊q⌋ : ℚ) then ⌊q⌋ + 1
  else if 2 ∣ ⌊q⌋ then ⌊q⌋ else ⌊q⌋ + 1

/-- `x.quantize(Decimal("0.01"))`: round to 2 decimal places, ties to even. -/
def quantize2 (q : ℚ) : ℚ := (roundHalfEven (q * 100) : ℚ) / 100

/-- A rational representable with 2 decimal places. -/
def IsQuantized2 (q : ℚ) : Prop := ∃ n : ℤ, q = (n : ℚ) / 100

theorem roundHalfEven_intCast (n : ℤ) : roundHalfEven (n : ℚ) = n := by
  simp [roundHalfEven]

theorem roundHalfEven_ge_floor (q : ℚ) : ⌊q⌋ ≤ roundHalfEven q := by
  unfold roundHalfEven
  split
  · exact le_refl _
  · split
    · omega
    · split <;> omega

theorem roundHalfEven_le_ceil (q : ℚ) : roundHalfEven q ≤ ⌈q⌉ := by
  unfold roundHalfEven
  by_cases h : q - (⌊q⌋ : ℚ) = 0
  · have hq : (⌊q⌋ : ℚ) = q := by linarith
    have : ⌈q⌉ = ⌊q⌋ := by
      rw [← hq]
      simp
    simp only [h]
    norm_num
    omega
  · have hfrac : 0 < q - (⌊q⌋ : ℚ) := by
      have := Int.floor_le q
      have hne : (⌊q⌋ : ℚ) ≤ q := this
      rcases lt_or_eq_of_le hne with h1 | h1
      · linarith
      · exact absurd (by linarith) h
    have hceil : ⌈q⌉ = ⌊q⌋ + 1 := by
      have h1 : ⌊q⌋ < q := by
        have := Int.floor_le q
        rcases lt_or_eq_of_le this with h2 | h2
        · exact_mod_cast h2
        · exact absurd (by linarith) h
      have h2 : q ≤ (⌊q⌋ : ℚ) + 1 := le_of_lt (Int.lt_floor_add_one q)
      have h3 : ⌈q⌉ ≤ ⌊q⌋ + 1 := by
        apply Int.ceil_le.mpr
        push_cast
        linarith
      have h4 : ⌊q⌋ + 1 ≤ ⌈q⌉ := by
        have := Int.le_ceil q
        have h5 : (⌊q⌋ : ℚ) < (⌈q⌉ : ℚ) := by linarith
        have h6 : ⌊q⌋ < ⌈q⌉ := by exact_mod_cast h5
        omega
      omega
    rw [hceil]
    split
    · omega
    · split
      · omega
      · split <;> omega

theorem quantize2_nonneg {q : ℚ} (h : 0 ≤ q) : 0 ≤ quantize2 q := by
  unfold quantize2
  have h1 : (0 : ℤ) ≤ ⌊q * 100⌋ := by
    apply Int.floor_nonneg.mpr
    positivity
  have h2 : (0 : ℤ) ≤ roundHalfEven (q * 100) := le_trans h1 (roundHalfEven_ge_floor _)
  have h3 : (0 : ℚ) ≤ (roundHalfEven (q * 100) : ℚ) := by exact_mod_cast h2
  positivity

theorem quantize2_le_of_le_int {q : ℚ} {m : ℤ} (h : q ≤ (m : ℚ) / 100) :
    quantize2 q ≤ (m : ℚ) / 100 := by
  unfold quantize2
  have h1 : q * 100 ≤ (m : ℚ) := by
    have : (0 : ℚ) < 100 := by norm_num
    calc q * 100 ≤ ((m : ℚ) / 100) * 100 := by
          apply mul_le_mul_of_nonneg_right h (by norm_num)
      _ = (m : ℚ) := by field_simp
  have h2 : ⌈q * 100⌉ ≤ m := Int.ceil_le.mpr h1
  have h3 : roundHalfEven (q * 100) ≤ m := le_trans (roundHalfEven_le_ceil _) h2
  have h4 : ((roundHalfEven (q * 100) : ℤ) : ℚ) ≤ (m : ℚ) := by exact_mod_cast h3
  apply div_le_div_of_nonneg_right h4 (by norm_num) |>.trans_eq rfl

theorem quantize2_isQuantized (q : ℚ) : IsQuantized2 (quantize2 q) :=
  ⟨roundHalfEven (q * 100), rfl⟩

theorem quantize2_of_isQuantized {q : ℚ} (h : IsQuantized2 q) : quantize2 q = q := by
  obtain ⟨n, rfl⟩ := h
  unfold quantize2
  have h1 : ((n : ℚ) / 100) * 100 = (n : ℚ) := by field_simp
  rw [h1, roundHalfEven_intCast]

theorem IsQuantized2.add {a b : ℚ} (ha : IsQuantized2 a) (hb : IsQuantized2 b) :
    IsQuantized2 (a + b) := by
  obtain ⟨m, rfl⟩ := ha
  obtain ⟨n, rfl⟩ := hb
  exact ⟨m + n, by push_cast; ring⟩

theorem IsQuantized2.sub {a b : ℚ} (ha : IsQuantized2 a) (hb : IsQuantized2 b) :
    IsQuantized2 (a - b) := by
  obtain ⟨m, rfl⟩ := ha
  obtain ⟨n, rfl⟩ := hb
  exact ⟨m - n, by push_cast; ring⟩

/-! ## Wallet (`wallet/models.py`) -/

/-- The persisted state of a `Wallet` row (only the balance is relevant to
the claims; owner identity and currency are carried by context). -/
structure Wallet where
  balance : Money
  deriving Repr, DecidableEq

/-- `Wallet.clean`: validate a balance before saving.  Balances are always
rationals in the model, so the `Decimal(str(...))` coercion step cannot
fail and is omitted; the bound checks and the final 2-dp quantization are
exactly those of the source. -/
def Wallet.clean (b : Money) : Except String Money :=
  if b < 0 then Except.error "Balance cannot be negative"
  else if MAX_BALANCE < b then Except.error "Balance cannot exceed MAX_BALANCE"
  else Except.ok (quantize2 b)

/-- `Wallet.save`: validates via `clean`, then persists the cleaned balance. -/
def Wallet.save (w : Wallet) : Except String Wallet :=
  (Wallet.clean w.balance).map Wallet.mk

/-! ## String helpers

Python `str.lower()` and `str.strip()`, written structurally over the
character list so that concrete runs evaluate inside proofs. -/

/-- Python `str.lower()` (ASCII case folding, as used on provider statuses). -/
def lower (s : String) : String := ⟨s.data.map Char.toLower⟩

/-- Python `str.strip()`: drop leading and trailing whitespace. -/
def strip (s : String) : String :=
  ⟨((s.data.dropWhile Char.isWhitespace).reverse.dropWhile Char.isWhitespace).reverse⟩

/-- Python truthiness of an optional string: `None` and `""` are falsy. -/
def truthy : Option String → Bool
  | none => false
  | some s => s ≠ ""

/-- Python `a or b` on optional strings (first truthy value, else the last). -/
def orStr (a b : Option String) : Option String :=
  if truthy a then a else b

/-! ## Provider responses (`transactions/providers/vtpass.py`)

A parsed VTPass JSON body.  A field is `none` when the key (or the
enclosing object) is absent; a non-dict body is the response with every
field `none`. -/

structure ProviderResponse where
  /-- Top-level `code` field. -/
  code : Option String := none
  /-- Nested `content.transactions.status`; `none` when `content` or
  `content.transactions` is missing. -/
  transactions_status : Option String := none
  /-- Top-level `token`. -/
  token : Option String := none
  /-- Top-level `purchased_code`. -/
  purchased_code : Option String := none
  /-- Nested `content.token`. -/
  content_token : Option String := none
  /-- Top-level `response_description`. -/
  response_description : Option String := none
  deriving Repr, DecidableEq

/-- Normalization applied by `buy_airtime` / `buy_data` / `verify_meter` /
`pay_electricity`: a body without a `code` key gets `code = "ERROR"` (the
non-dict case is the all-`none` response, which this also covers). -/
def normalizeResponse (r : ProviderResponse) : ProviderResponse :=
  match r.code with
  | none => { r with code := some "ERROR" }
  | some _ => r

/-- `str(resp.get("code", "")).strip()` as done by the orchestrators. -/
def respCode (r : ProviderResponse) : String := strip (r.code.getD "")

/-- `str(content.get("transactions", {}).get("status", "")).lower()`. -/
def respStatus (r : ProviderResponse) : String := lower (r.transactions_status.getD "")

/-! ## Transaction records (`transactions/models.py`) -/

/-- `Transaction.STATUS_CHOICES`: the declared choices are only
`completed` and `failed` (no `pending`). -/
def STATUS_CHOICES : List String := ["completed", "failed"]

/-- `Transaction.TRANSACTION_TYPES`. -/
def TRANSACTION_TYPES : List String := ["funding", "purchase"]

/-- The persisted state of a `Transaction` row.  Fields the claims never
touch (`requery_attempts`, `last_requery_at`, `requires_manual_review`,
`updated_at`) are omitted; `timestamp` is an abstract integer clock. -/
structure Txn where
  transaction_type : String
  amount : Money
  description : String
  reference : Option String := none
  status : String
  token : Option String := none
  provider_status : String := ""
  provider_response : Option ProviderResponse := none
  timestamp : ℤ := 0
  deriving Repr, DecidableEq

/-- `Transaction.clean`: validates ONLY the amount (positivity, cap,
2-dp quantization); the status field is not validated against
`STATUS_CHOICES`.  The `Decimal(str(...))` coercion cannot fail on a
rational and is omitted. -/
def Transaction.clean (t : Txn) : Except String Txn :=
  if t.amount ≤ 0 then Except.error "Amount must be greater than zero"
  else if MAX_TRANSACTION < t.amount then Except.error "Amount cannot exceed MAX_TRANSACTION"
  else Except.ok { t with amount := quantize2 t.amount }

/-- `Transaction.save`: validate via `clean`, then persist. -/
def Transaction.save (t : Txn) : Except String Txn := Transaction.clean t

/-! ## Wallet deposit / purchase methods (`wallet/models.py`) -/

/-- `Wallet.deposit`: add funds, then create a completed funding record.
Raises (returns `Except.error`) without persisting on a bad amount or a
balance-cap breach. -/
def Wallet.deposit (w : Wallet) (amount : Money) (description : String)
    (reference : Option String) (now : ℤ) : Except String (Wallet × Txn) :=
  if amount ≤ 0 then Except.error "Amount must be positive"
  else
    let amount := quantize2 amount
    if MAX_TRANSACTION < amount then Except.error "Transaction cannot exceed MAX_TRANSACTION"
    else
      let newBalance := w.balance + amount
      if MAX_BALANCE < newBalance then Except.error "Would exceed maximum balance"
      else
        match Wallet.save { balance := newBalance } with
        | Except.error e => Except.error e
        | Except.ok w2 =>
          let t0 : Txn :=
            { transaction_type := "funding", amount := amount, description := description,
              reference := reference, status := "completed", timestamp := now }
          match Transaction.save t0 with
          | Except.error e => Except.error e
          | Except.ok t => Except.ok (w2, t)

/-- `Wallet.purchase`: remove funds, then create a completed purchase record. -/
def Wallet.purchase (w : Wallet) (amount : Money) (description : String)
    (now : ℤ) : Except String (Wallet × Txn) :=
  if amount ≤ 0 then Except.error "Amount must be positive"
  else
    let amount := quantize2 amount
    if MAX_TRANSACTION < amount then Except.error "Transaction cannot exceed MAX_TRANSACTION"
    else if w.balance < amount then Except.error "Insufficient funds"
    else
      match Wallet.save { balance := w.balance - amount } with
      | Except.error e => Except.error e
      | Except.ok w2 =>
        let t0 : Txn :=
          { transaction_type := "purchase", amount := amount, description := description,
            status := "completed", timestamp := now }
        match Transaction.save t0 with
        | Except.error e => Except.error e
        | Except.ok t => Except.ok (w2, t)

/-! ## Fraud checks (`transactions/services/fraud_check.py`) -/

/-- The `AppSettings` singleton row. -/
structure AppSettings where
  fraud_checks_enabled : Bool
  maintenance_mode : Bool
  deriving Repr, DecidableEq

/-- The per-user inputs the fraud checks read from the database.  The
aggregate fields stand for the corresponding queryset aggregates at the
time of the check. -/
structure UserState where
  /-- Sum of `amount` over completed purchase transactions of the user
  with `timestamp ≥ today 00:00`. -/
  todayCompletedPurchaseTotal : Money
  /-- Count of purchase transactions (any status) in the last hour. -/
  hourlyPurchaseCount : Nat
  /-- Count of failed transactions in the last 24 hours. -/
  failedCount24h : Nat
  /-- Whether `now - user.date_joined < 5 minutes`. -/
  accountYoungerThan5Min : Bool
  deriving Repr, DecidableEq

/-- `is_user_verified`: the source returns `False` unconditionally (KYC is
not implemented yet). -/
def is_user_verified (_u : UserState) : Bool := false

/-- A limit tier as returned by `get_transaction_limits`. -/
structure Limits where
  single_limit : Money
  daily_limit : Money
  hourly_count : Nat
  deriving Repr, DecidableEq

/-- Settings values from `config/settings.py` for verified users. -/
def VERIFIED_LIMITS : Limits := { single_limit := 50000, daily_limit := 200000, hourly_count := 20 }

/-- Settings values from `config/settings.py` for unverified users. -/
def UNVERIFIED_LIMITS : Limits := { single_limit := 5000, daily_limit := 20000, hourly_count := 5 }

/-- `get_transaction_limits`: tier lookup by verification status. -/
def get_transaction_limits (u : UserState) : Limits :=
  if is_user_verified u then VERIFIED_LIMITS else UNVERIFIED_LIMITS

/-- `check_transaction_limits`: single-transaction ceiling, rolling daily
sum of completed purchases against the daily ceiling, then hourly attempt
count.  An `Except.error` models a raised `FraudCheckError`. -/
def check_transaction_limits (u : UserState) (amount : Money) : Except String Unit :=
  let limits := get_transaction_limits u
  if limits.single_limit < amount then
    Except.error "Transaction amount exceeds single transaction limit"
  else if limits.daily_limit < u.todayCompletedPurchaseTotal + amount then
    Except.error "Daily transaction limit exceeded"
  else if limits.hourly_count ≤ u.hourlyPurchaseCount then
    Except.error "Too many transactions in the last hour"
  else Except.ok ()

/-- `check_suspicious_activity`: failed-transaction threshold in the last
24 hours, then the new-account cooldown. -/
def check_suspicious_activity (u : UserState) : Except String Unit :=
  if 5 < u.failedCount24h then
    Except.error "Too many failed transactions in the last 24 hours"
  else if u.accountYoungerThan5Min ∧ (1000 : Money) < (get_transaction_limits u).single_limit then
    Except.error "New accounts have temporary transaction limits"
  else Except.ok ()

/-- `check_maintenance_mode`: raises whenever the maintenance flag is on. -/
def check_maintenance_mode (s : AppSettings) : Except String Unit :=
  if s.maintenance_mode then
    Except.error "System is currently under maintenance. Please try again later."
  else Except.ok ()

/-- `run_fraud_checks`: maintenance mode is always checked; every other
check is skipped when the fraud-checks flag is off. -/
def run_fraud_checks (s : AppSettings) (u : UserState) (amount : Money) :
    Except String Unit :=
  match check_maintenance_mode s with
  | Except.error e => Except.error e
  | Except.ok _ =>
    if !s.fraud_checks_enabled then Except.ok ()
    else
      match check_transaction_limits u amount with
      | Except.error e => Except.error e
      | Except.ok _ => check_suspicious_activity u

/-! ## Purchase orchestrators
(`transactions/services/airtime.py`, `data.py`, `electricity.py`) -/

/-- Python `str.upper()` (used in record descriptions). -/
def upper (s : String) : String := ⟨s.data.map Char.toUpper⟩

/-- Python `a or b` on plain strings: the empty string is falsy. -/
def pyOrStr (a b : String) : String := if a = "" then b else a

/-- `airtime.py`: UI network key to VTPass serviceID. -/
def NETWORK_SERVICE_ID_MAP : List (String × String) :=
  [("mtn", "mtn"), ("airtel", "airtel"), ("glo", "glo"), ("9mobile", "etisalat")]

/-- `data.py`: UI network key to VTPass data serviceID. -/
def NETWORK_DATA_SERVICE_ID_MAP : List (String × String) :=
  [("mtn", "mtn-data"), ("airtel", "airtel-data"), ("glo", "glo-data"),
   ("9mobile", "etisalat-data")]

/-- `electricity.py`: DISCO key to VTPass serviceID. -/
def DISCO_SERVICE_ID_MAP : List (String × String) :=
  [("ikedc", "ikeja-electric"), ("ekedc", "eko-electric"), ("aedc", "abuja-electric"),
   ("bedc", "benin-electric"), ("phed", "portharcourt-electric"),
   ("kaedco", "kaduna-electric"), ("kedco", "kano-electric"), ("eedc", "enugu-electric"),
   ("aba", "aba-electric")]

/-- An in-code data plan (`data.py` DATA_PLANS entries). -/
structure DataPlan where
  code : String
  name : String
  amount : Money
  deriving Repr, DecidableEq

/-- `data.py`: the in-code plan catalog. -/
def DATA_PLANS : List (String × List DataPlan) :=
  [("mtn",
    [{ code := "mtn-10mb-100", name := "MTN 100MB", amount := 100 },
     { code := "mtn-50mb-200", name := "MTN 200MB", amount := 200 },
     { code := "mtn-100mb-1000", name := "MTN 1.5GB", amount := 1000 }]),
   ("airtel",
    [{ code := "airt-100", name := "Airtel 75MB", amount := 100 },
     { code := "airt-200", name := "Airtel 200MB", amount := 200 },
     { code := "airt-500", name := "Airtel 750MB", amount := 500 }]),
   ("glo",
    [{ code := "glo100", name := "Glo 105MB", amount := 100 },
     { code := "glo200", name := "Glo 350MB", amount := 200 },
     { code := "glo500", name := "Glo 1.05GB", amount := 500 }]),
   ("9mobile",
    [{ code := "eti-100", name := "9mobile 100MB", amount := 100 },
     { code := "eti-200", name := "9mobile 650MB", amount := 200 },
     { code := "eti-500", name := "9mobile 500MB", amount := 500 }])]

/-- `get_data_plans_for_network`. -/
def get_data_plans_for_network (network : String) : List DataPlan :=
  (DATA_PLANS.lookup (lower network)).getD []

/-- `resolve_data_plan`: find the plan for a network and variation code;
`Except.error` models the raised `ValueError`. -/
def resolve_data_plan (network : String) (variation_code : String) :
    Except String DataPlan :=
  match (get_data_plans_for_network network).find? (fun p => p.code = variation_code) with
  | some plan => Except.ok plan
  | none => Except.error "Selected data plan is not available."

/-- The typed errors a purchase orchestration can raise before (or while)
mutating state. -/
inductive PurchaseError
  | invalidNetwork (msg : String)
  | invalidInput (msg : String)
  | fraud (msg : String)
  | insufficientBalance (msg : String)
  | meterVerification (msg : String)
  | provider (msg : String)
  | validation (msg : String)
  deriving Repr, DecidableEq

/-- Result of one orchestration run over the persisted state. -/
inductive OrchResult
  /-- An exception was raised before any mutation was committed: the
  wallet is untouched and no record exists. -/
  | aborted (e : PurchaseError)
  /-- An exception propagated after the reserve step committed (gateway
  `VTPassError`, or a rolled-back finalize block): the wallet and record
  are as given. -/
  | raised (e : PurchaseError) (w : Wallet) (tx : Txn)
  /-- The orchestration ran to completion with this persisted state. -/
  | finalized (w : Wallet) (tx : Txn)
  deriving Repr, DecidableEq

/-- The persisted wallet after a run that started from `w0`. -/
def OrchResult.walletAfter (w0 : Wallet) : OrchResult → Wallet
  | OrchResult.aborted _ => w0
  | OrchResult.raised _ w _ => w
  | OrchResult.finalized w _ => w

/-- The persisted purchase record after a run, if one was created. -/
def OrchResult.txAfter : OrchResult → Option Txn
  | OrchResult.aborted _ => none
  | OrchResult.raised _ _ t => some t
  | OrchResult.finalized _ t => some t

/-- The status of the persisted record after a run, if one was created. -/
def OrchResult.statusAfter (r : OrchResult) : Option String :=
  r.txAfter.map Txn.status

/-- The pending record created by the airtime reserve step. -/
def airtimePendingTxn (request_id : String) (now : ℤ) (network_key phone : String)
    (amount : Money) : Txn :=
  { transaction_type := "purchase", amount := amount,
    description := "Airtime VTU - " ++ upper network_key ++ " to " ++ phone ++ " via VTPass",
    reference := some request_id, status := "pending", timestamp := now }

/-- The pending record created by the data reserve step. -/
def dataPendingTxn (reference : String) (now : ℤ) (plan : DataPlan) (phone : String) : Txn :=
  { transaction_type := "purchase", amount := plan.amount,
    description := "Data - " ++ plan.name ++ " to " ++ phone,
    reference := some reference, status := "pending", timestamp := now }

/-- The pending record created by the electricity reserve step. -/
def elecPendingTxn (reference : String) (now : ℤ) (disco_key meter_type meter_number : String)
    (amount : Money) : Txn :=
  { transaction_type := "purchase", amount := amount,
    description := "Electricity VTU - " ++ upper disco_key ++ " " ++ meter_type ++ " meter "
      ++ meter_number ++ " via VTPass",
    reference := some reference, status := "pending", timestamp := now }

/-- `purchase_airtime` (`transactions/services/airtime.py`).

`request_id` stands for the generated `VTU-<user_id>-<timestamp-ms>`
reference; `gateway` is the outcome of `client.buy_airtime` (an
`Except.error` models a raised `VTPassError`; an `Except.ok` body is
normalized exactly as `buy_airtime` does). -/
def purchase_airtime (cfg : AppSettings) (u : UserState) (request_id : String)
    (now : ℤ) (w : Wallet) (network phone : String) (amount : Money)
    (gateway : Except String ProviderResponse) : OrchResult :=
  let network_key := strip (lower network)
  match NETWORK_SERVICE_ID_MAP.lookup network_key with
  | none => OrchResult.aborted (PurchaseError.invalidNetwork ("Unsupported network: " ++ network))
  | some _service_id =>
    if amount ≤ 0 then OrchResult.aborted (PurchaseError.invalidInput "Amount must be positive.")
    else
      match run_fraud_checks cfg u amount with
      | Except.error e => OrchResult.aborted (PurchaseError.fraud e)
      | Except.ok _ =>
        -- Step 1 (atomic): lock wallet, balance check, pending record, debit.
        if w.balance < amount then
          OrchResult.aborted (PurchaseError.insufficientBalance "Insufficient wallet balance.")
        else
          let tx0 : Txn := airtimePendingTxn request_id now network_key phone amount
          match Transaction.save tx0 with
          | Except.error e => OrchResult.aborted (PurchaseError.validation e)
          | Except.ok tx1 =>
            match Wallet.save { balance := w.balance - amount } with
            | Except.error e => OrchResult.aborted (PurchaseError.validation e)
            | Except.ok w1 =>
              -- Step 2: VTPass call outside the DB lock.
              match gateway with
              | Except.error e => OrchResult.raised (PurchaseError.provider e) w1 tx1
              | Except.ok raw =>
                let resp := normalizeResponse raw
                let code := respCode resp
                let is_success := code = "000" ∨ code = "0000"
                let vtpass_status := respStatus resp
                -- Step 3 (atomic): finalize from the provider result.
                if is_success ∧ (vtpass_status = "delivered" ∨ vtpass_status = "success") then
                  let txc : Txn :=
                    { tx1 with
                      status := "completed",                      description := "Airtime SUCCESS - " ++ upper network_key ++ " to " ++ phone }
                  match Transaction.save txc with
                  | Except.error e => OrchResult.raised (PurchaseError.validation e) w1 tx1
                  | Except.ok tx2 => OrchResult.finalized w1 tx2
                else if vtpass_status = "pending" ∨ vtpass_status = "processing" then
                  let txp : Txn :=
                    { tx1 with
                      status := "pending",                      description := "Airtime PENDING - " ++ upper network_key ++ " to " ++ phone }
                  match Transaction.save txp with
                  | Except.error e => OrchResult.raised (PurchaseError.validation e) w1 tx1
                  | Except.ok tx2 => OrchResult.finalized w1 tx2
                else
                  let txf : Txn :=
                    { tx1 with
                      status := "failed",                      description := "Airtime FAILED - " ++ upper network_key ++ " to " ++ phone }
                  match Transaction.save txf with
                  | Except.error e => OrchResult.raised (PurchaseError.validation e) w1 tx1
                  | Except.ok tx2 =>
                    match Wallet.save { balance := w1.balance + amount } with
                    | Except.error e => OrchResult.raised (PurchaseError.validation e) w1 tx1
                    | Except.ok w2 => OrchResult.finalized w2 tx2

/-- `purchase_data` (`transactions/services/data.py`).

`reference` stands for the generated `DATA-<user_pk>-<timestamp-ms>`
string; `gateway` is the outcome of `client.buy_data`. -/
def purchase_data (cfg : AppSettings) (u : UserState) (reference : String)
    (now : ℤ) (w : Wallet) (network phone variation_code : String)
    (gateway : Except String ProviderResponse) : OrchResult :=
  let network_key := lower network
  match NETWORK_DATA_SERVICE_ID_MAP.lookup network_key with
  | none =>
    OrchResult.aborted (PurchaseError.invalidNetwork ("Unsupported data network: " ++ network))
  | some _service_id =>
    match resolve_data_plan network_key variation_code with
    | Except.error e => OrchResult.aborted (PurchaseError.invalidInput e)
    | Except.ok plan =>
      let amount := plan.amount
      match run_fraud_checks cfg u amount with
      | Except.error e => OrchResult.aborted (PurchaseError.fraud e)
      | Except.ok _ =>
        -- Step 1 (atomic): balance check, pending record, debit.
        if w.balance < amount then
          OrchResult.aborted
            (PurchaseError.insufficientBalance "Insufficient balance for data purchase.")
        else
          let tx0 : Txn := dataPendingTxn reference now plan phone
          match Transaction.save tx0 with
          | Except.error e => OrchResult.aborted (PurchaseError.validation e)
          | Except.ok tx1 =>
            match Wallet.save { balance := w.balance - amount } with
            | Except.error e => OrchResult.aborted (PurchaseError.validation e)
            | Except.ok w1 =>
              -- Step 2: provider call outside the DB lock.
              match gateway with
              | Except.error e => OrchResult.raised (PurchaseError.provider e) w1 tx1
              | Except.ok raw =>
                let resp := normalizeResponse raw
                let code := respCode resp
                let vtpass_status := respStatus resp
                -- Step 3 (atomic): snapshot provider fields, then branch.
                let txs : Txn :=
                  { tx1 with
                    provider_status := pyOrStr vtpass_status (pyOrStr code ""),                    provider_response := some resp }
                if (code = "000" ∨ code = "0000")
                    ∧ (vtpass_status = "delivered" ∨ vtpass_status = "success") then
                  let txc : Txn :=
                    { txs with
                      status := "completed",                      description := txs.description ++ " [Data delivered]" }
                  match Transaction.save txc with
                  | Except.error e => OrchResult.raised (PurchaseError.validation e) w1 tx1
                  | Except.ok tx2 => OrchResult.finalized w1 tx2
                else if vtpass_status = "pending" ∨ vtpass_status = "processing"
                    ∨ vtpass_status = "" then
                  let txp : Txn :=
                    { txs with
                      status := "pending",                      description := txs.description ++ " [Awaiting data confirmation]" }
                  match Transaction.save txp with
                  | Except.error e => OrchResult.raised (PurchaseError.validation e) w1 tx1
                  | Except.ok tx2 => OrchResult.finalized w1 tx2
                else
                  let txf : Txn :=
                    { txs with
                      status := "failed",                      description := txs.description ++ " [Data failed, refunded]" }
                  match Transaction.save txf with
                  | Except.error e => OrchResult.raised (PurchaseError.validation e) w1 tx1
                  | Except.ok tx2 =>
                    match Wallet.save { balance := w1.balance + tx2.amount } with
                    | Except.error e => OrchResult.raised (PurchaseError.validation e) w1 tx1
                    | Except.ok w2 => OrchResult.finalized w2 tx2

/-- `purchase_electricity` (`transactions/services/electricity.py`).

`verify` is the outcome of `client.verify_meter` (before any mutation);
`gateway` is the outcome of `client.pay_electricity`. -/
def purchase_electricity (cfg : AppSettings) (u : UserState) (reference : String)
    (now : ℤ) (w : Wallet) (disco meter_number meter_type : String) (amount : Money)
    (phone : String) (verify : Except String ProviderResponse)
    (gateway : Except String ProviderResponse) : OrchResult :=
  let disco_key := strip (lower disco)
  match DISCO_SERVICE_ID_MAP.lookup disco_key with
  | none => OrchResult.aborted (PurchaseError.invalidNetwork ("Unsupported DISCO: " ++ disco))
  | some _service_id =>
    let meter_type := strip (lower meter_type)
    if ¬ (meter_type = "prepaid" ∨ meter_type = "postpaid") then
      OrchResult.aborted (PurchaseError.invalidInput "Invalid meter type.")
    else if amount ≤ 0 then
      OrchResult.aborted (PurchaseError.invalidInput "Amount must be greater than zero.")
    else
      let meter_number := strip meter_number
      if meter_number = "" then
        OrchResult.aborted (PurchaseError.invalidInput "Meter number is required.")
      else
        let phone := strip phone
        if phone = "" then
          OrchResult.aborted (PurchaseError.invalidInput "Customer phone number is required.")
        else
          match run_fraud_checks cfg u amount with
          | Except.error e => OrchResult.aborted (PurchaseError.fraud e)
          | Except.ok _ =>
            -- 1) meter verification, before any mutation.
            match verify with
            | Except.error e => OrchResult.aborted (PurchaseError.provider e)
            | Except.ok vraw =>
              let vresp := normalizeResponse vraw
              if (vresp.code.getD "") ≠ "000" then
                OrchResult.aborted
                  (PurchaseError.meterVerification "Meter verification failed.")
              else
                -- 2) reserve (atomic).
                if w.balance < amount then
                  OrchResult.aborted
                    (PurchaseError.insufficientBalance
                      "Insufficient balance for electricity purchase.")
                else
                  let tx0 : Txn := elecPendingTxn reference now disco_key meter_type meter_number amount
                  match Transaction.save tx0 with
                  | Except.error e => OrchResult.aborted (PurchaseError.validation e)
                  | Except.ok tx1 =>
                    match Wallet.save { balance := w.balance - amount } with
                    | Except.error e => OrchResult.aborted (PurchaseError.validation e)
                    | Except.ok w1 =>
                      -- 3) VTPass pay outside the DB lock.
                      match gateway with
                      | Except.error e => OrchResult.raised (PurchaseError.provider e) w1 tx1
                      | Except.ok raw =>
                        let resp := normalizeResponse raw
                        let code := respCode resp
                        let vtpass_status := respStatus resp
                        let token :=
                          strip ((orStr resp.token
                            (orStr resp.purchased_code resp.content_token)).getD "")
                        -- 4) finalize (atomic), refund on failure.
                        let txs : Txn :=
                          { tx1 with
                            provider_status := pyOrStr vtpass_status (pyOrStr code ""),
                            provider_response := some resp }
                        if code = "000" ∧ vtpass_status = "delivered" then
                          let txc : Txn :=
                            if token ≠ "" then { txs with status := "completed", token := some token }
                            else { txs with
                              status := "completed",
                              description := txs.description ++ " [Electricity delivered]" }
                          match Transaction.save txc with
                          | Except.error e => OrchResult.raised (PurchaseError.validation e) w1 tx1
                          | Except.ok tx2 => OrchResult.finalized w1 tx2
                        else if vtpass_status = "pending" ∨ vtpass_status = "processing"
                            ∨ vtpass_status = "" then
                          let txp : Txn :=
                            { txs with
                              status := "pending",                              description := txs.description ++ " [Awaiting DISCO confirmation]" }
                          match Transaction.save txp with
                          | Except.error e => OrchResult.raised (PurchaseError.validation e) w1 tx1
                          | Except.ok tx2 => OrchResult.finalized w1 tx2
                        else
                          let txf : Txn :=
                            { txs with
                              status := "failed",                              description := txs.description ++ " [Electricity failed, refunded]" }
                          match Transaction.save txf with
                          | Except.error e => OrchResult.raised (PurchaseError.validation e) w1 tx1
                          | Except.ok tx2 =>
                            match Wallet.save { balance := w1.balance + tx2.amount } with
                            | Except.error e =>
                              OrchResult.raised (PurchaseError.validation e) w1 tx1
                            | Except.ok w2 => OrchResult.finalized w2 tx2

/-! ## Webhook handler (`transactions/views.py`, `vtpass_webhook`) -/

/-- A parsed webhook payload; a field is `none` when the key is absent. -/
structure WebhookData where
  request_id : Option String := none
  requestId : Option String := none
  reference : Option String := none
  status : Option String := none
  token : Option String := none
  purchased_code : Option String := none
  deriving Repr, DecidableEq

/-- HTTP outcome of the webhook endpoint. -/
inductive WebhookOutcome
  /-- 401: a secret is configured and the signature mismatches. -/
  | badSignature
  /-- 400: no truthy reference key in the payload. -/
  | missingReference
  /-- 404: no record with that reference. -/
  | notFound
  /-- 200: the record was updated. -/
  | processed
  /-- 500: `tx.save()` raised inside the handler. -/
  | internalError
  deriving Repr, DecidableEq

/-- Signature verification outcome, an input to the handler:
`none` models no configured `VTPASS_SECRET_KEY` (verification skipped);
`some b` models a configured secret with HMAC comparison result `b`.
The HMAC-SHA512 computation itself is outside the model. -/
abbrev SigCheck := Option Bool

/-- The in-memory update the webhook handler applies to the resolved
record before calling `tx.save()`: map the pushed status onto the record
status (with the token side-update on the completed branch), overwriting
whatever status the record currently has. -/
def webhookUpdatedTxn (data : WebhookData) (tx : Txn) : Txn :=
  let status := lower (data.status.getD "")
  if status = "delivered" ∨ status = "success" ∨ status = "successful" then
    let token := orStr data.token data.purchased_code
    if truthy token ∧ ¬ truthy tx.token then
      { tx with
        status := "completed",
        token := some (strip ((token.getD "").replace "Token :" "")) }
    else { tx with status := "completed" }
  else if status = "failed" ∨ status = "reversed" then
    { tx with status := "failed" }
  else
    { tx with status := "pending" }

theorem webhookUpdatedTxn_amount (data : WebhookData) (tx : Txn) :
    (webhookUpdatedTxn data tx).amount = tx.amount := by
  simp only [webhookUpdatedTxn]
  split_ifs <;> rfl

theorem webhookUpdatedTxn_status (data : WebhookData) (tx : Txn) :
    (webhookUpdatedTxn data tx).status =
      (if lower (data.status.getD "") = "delivered" ∨ lower (data.status.getD "") = "success"
          ∨ lower (data.status.getD "") = "successful" then "completed"
       else if lower (data.status.getD "") = "failed"
          ∨ lower (data.status.getD "") = "reversed" then "failed"
       else "pending") := by
  simp only [webhookUpdatedTxn]
  split_ifs <;> rfl

/-- `vtpass_webhook`: resolve the reference, map the pushed status via
`webhookUpdatedTxn`, and save.  The handler never reads or writes the
wallet (`views.py` webhook code touches only `Transaction`), so the
wallet passes through unchanged. -/
def vtpass_webhook (sig : SigCheck) (data : WebhookData) (w : Wallet)
    (txs : List Txn) : Wallet × List Txn × WebhookOutcome :=
  match sig with
  | some false => (w, txs, WebhookOutcome.badSignature)
  | _ =>
    let ref? := orStr data.request_id (orStr data.requestId data.reference)
    if ¬ truthy ref? then (w, txs, WebhookOutcome.missingReference)
    else
      let ref := ref?.getD ""
      match txs.find? (fun t => t.reference = some ref) with
      | none => (w, txs, WebhookOutcome.notFound)
      | some tx =>
        let tx1 := webhookUpdatedTxn data tx
        match Transaction.save tx1 with
        | Except.error _ => (w, txs, WebhookOutcome.internalError)
        | Except.ok tx2 =>
          (w, txs.map (fun t => if t.reference = some ref then tx2 else t),
           WebhookOutcome.processed)

/-! ## Requery sweep
(`transactions/services/vtu_service.py`, `verification.py`) -/

/-- Transport-level outcome of the `/api/requery` call made by
`check_and_get_transaction_status`. -/
inductive RequeryNet
  /-- HTTP 404: the provider has no record of the reference. -/
  | notFound
  /-- A JSON body whose `content.transactions.status` is this string. -/
  | okStatus (s : String)
  /-- A JSON body without `content.transactions` (raises `VTPassError`). -/
  | malformed
  /-- Timeout or request error (raises `VTPassError`). -/
  | netError (msg : String)
  deriving Repr, DecidableEq

/-- `check_and_get_transaction_status`: `ok none` means the reference does
not exist on VTPass (HTTP 404); an `Except.error` models a raised
`VTPassError`. -/
def check_and_get_transaction_status : RequeryNet → Except String (Option String)
  | RequeryNet.notFound => Except.ok none
  | RequeryNet.malformed => Except.error "Unexpected response format"
  | RequeryNet.netError m => Except.error m
  | RequeryNet.okStatus s =>
    let status := lower s
    if status = "delivered" ∨ status = "success" then Except.ok (some "completed")
    else if status = "failed" ∨ status = "reversed" then Except.ok (some "failed")
    else Except.ok (some "pending")

/-- The aggregate counters returned by the sweep. -/
structure SweepStats where
  checked : Nat := 0
  completed : Nat := 0
  failed : Nat := 0
  still_pending : Nat := 0
  errors : Nat := 0
  deriving Repr, DecidableEq

/-- Componentwise sum of sweep counters. -/
def SweepStats.add (a b : SweepStats) : SweepStats :=
  { checked := a.checked + b.checked, completed := a.completed + b.completed,
    failed := a.failed + b.failed, still_pending := a.still_pending + b.still_pending,
    errors := a.errors + b.errors }

/-- The queryset filter of `recheck_pending_vtu`:
`status="pending", timestamp__lte=cutoff, transaction_type="purchase"`. -/
def sweepSelect (cutoff : ℤ) (t : Txn) : Bool :=
  t.status == "pending" && t.transaction_type == "purchase" && decide (t.timestamp ≤ cutoff)

/-- The per-record body of the sweep loop: requery, then update the record.
Exceptions (`VTPassError`, or a raising `tx.save()`) are recorded as
`errors` and leave the record untouched.  The wallet is never involved. -/
def recheck_one (net : RequeryNet) (tx : Txn) : Txn × SweepStats :=
  match check_and_get_transaction_status net with
  | Except.error _ => (tx, { checked := 1, errors := 1 })
  | Except.ok none =>
    match Transaction.save { tx with status := "failed" } with
    | Except.ok tx2 => (tx2, { checked := 1, failed := 1 })
    | Except.error _ => (tx, { checked := 1, errors := 1 })
  | Except.ok (some s) =>
    if s = "completed" then
      match Transaction.save { tx with status := "completed" } with
      | Except.ok tx2 => (tx2, { checked := 1, completed := 1 })
      | Except.error _ => (tx, { checked := 1, errors := 1 })
    else if s = "failed" then
      match Transaction.save { tx with status := "failed" } with
      | Except.ok tx2 => (tx2, { checked := 1, failed := 1 })
      | Except.error _ => (tx, { checked := 1, errors := 1 })
    else (tx, { checked := 1, still_pending := 1 })

/-- `recheck_pending_vtu`: process every record matching the filter; the
`oracle` gives the provider answer for each reference.  Only `Transaction`
rows are read and written; `verification.py` never touches the wallet. -/
def recheck_pending_vtu (cutoff : ℤ) (oracle : String → RequeryNet) :
    List Txn → List Txn × SweepStats
  | [] => ([], {})
  | tx :: rest =>
    let r := recheck_pending_vtu cutoff oracle rest
    if sweepSelect cutoff tx then
      let p := recheck_one (oracle (tx.reference.getD "")) tx
      (p.1 :: r.1, SweepStats.add p.2 r.2)
    else (tx :: r.1, r.2)

/-- A database snapshot: one wallet row plus its transaction rows. -/
structure DB where
  wallet : Wallet
  txs : List Txn
  deriving Repr, DecidableEq

/-- The sweep run against a database snapshot.  The wallet component is
carried through untouched because the sweep code never reads or writes
`Wallet`. -/
def sweepDB (cutoff : ℤ) (oracle : String → RequeryNet) (db : DB) : DB × SweepStats :=
  let r := recheck_pending_vtu cutoff oracle db.txs
  ({ db with txs := r.1 }, r.2)

/-- The action of one sweep pass on a single stored record. -/
def sweepStep (cutoff : ℤ) (oracle : String → RequeryNet) (t : Txn) : Txn :=
  if sweepSelect cutoff t then (recheck_one (oracle (t.reference.getD "")) t).1 else t

/-- The maintenance-mode `FraudCheckError` message. -/
def maintenanceMsg : String :=
  "System is currently under maintenance. Please try again later."

/-! ## Helper lemmas -/

theorem quantize2_intCast (n : ℤ) : quantize2 (n : ℚ) = n := by
  have h : IsQuantized2 (n : ℚ) := ⟨100 * n, by push_cast; field_simp⟩
  rw [quantize2_of_isQuantized h]

theorem wallet_save_fix {b : Money} (h0 : 0 ≤ b) (hM : b ≤ MAX_BALANCE)
    (hq : IsQuantized2 b) : Wallet.save { balance := b } = Except.ok { balance := b } := by
  simp [Wallet.save, Wallet.clean, not_lt.mpr h0, not_lt.mpr hM,
    quantize2_of_isQuantized hq, Except.map]

theorem transaction_save_fix {t : Txn} (h0 : 0 < t.amount)
    (hM : t.amount ≤ MAX_TRANSACTION) (hq : IsQuantized2 t.amount) :
    Transaction.save t = Except.ok t := by
  obtain ⟨ty, am, d, r, st, tok, ps, pr, ts⟩ := t
  simp only at h0 hM hq
  simp [Transaction.save, Transaction.clean, not_le.mpr h0, not_lt.mpr hM,
    quantize2_of_isQuantized hq]

theorem run_fraud_checks_maintenance {s : AppSettings} (u : UserState) (a : Money)
    (h : s.maintenance_mode = true) : run_fraud_checks s u a = Except.error maintenanceMsg := by
  simp [run_fraud_checks, check_maintenance_mode, h, maintenanceMsg]

theorem run_fraud_checks_disabled {s : AppSettings} (u : UserState) (a : Money)
    (hm : s.maintenance_mode = false) (hf : s.fraud_checks_enabled = false) :
    run_fraud_checks s u a = Except.ok () := by
  simp [run_fraud_checks, check_maintenance_mode, hm, hf]

theorem recheck_pending_vtu_eq_map (cutoff : ℤ) (oracle : String → RequeryNet)
    (txs : List Txn) :
    (recheck_pending_vtu cutoff oracle txs).1 = txs.map (sweepStep cutoff oracle) := by
  induction txs with
  | nil => rfl
  | cons tx rest ih =>
    simp only [recheck_pending_vtu, List.map, sweepStep]
    by_cases h : sweepSelect cutoff tx
    · simp [h, ih]
    · simp [h, ih]

theorem quantize2_le_MAX_BALANCE {b : Money} (h : b ≤ MAX_BALANCE) :
    quantize2 b ≤ MAX_BALANCE := by
  have h1 : b ≤ ((100000000 : ℤ) : ℚ) / 100 := by
    rw [MAX_BALANCE] at h
    push_cast
    linarith
  have h2 := quantize2_le_of_le_int h1
  rw [MAX_BALANCE]
  push_cast at h2
  linarith

theorem Transaction.save_error_amount {t : Txn} {e : String}
    (h : Transaction.save t = Except.error e) :
    t.amount ≤ 0 ∨ MAX_TRANSACTION < t.amount := by
  unfold Transaction.save Transaction.clean at h
  by_cases h1 : t.amount ≤ 0
  · exact Or.inl h1
  · by_cases h2 : MAX_TRANSACTION < t.amount
    · exact Or.inr h2
    · simp [h1, h2] at h

theorem transaction_save_ok_eq {t t2 : Txn} (h : Transaction.save t = Except.ok t2) :
    t2 = { t with amount := quantize2 t.amount } := by
  unfold Transaction.save Transaction.clean at h
  by_cases h1 : t.amount ≤ 0
  · simp [h1] at h
  · by_cases h2 : MAX_TRANSACTION < t.amount
    · simp [h1, h2] at h
    · simp [h1, h2] at h
      exact h.symm

theorem Wallet.save_error_bounds {w : Wallet} {e : String}
    (h : Wallet.save w = Except.error e) :
    w.balance < 0 ∨ MAX_BALANCE < w.balance := by
  unfold Wallet.save Wallet.clean at h
  by_cases h1 : w.balance < 0
  · exact Or.inl h1
  · by_cases h2 : MAX_BALANCE < w.balance
    · exact Or.inr h2
    · simp [h1, h2, Except.map] at h

theorem wallet_save_ok_eq {w w2 : Wallet} (h : Wallet.save w = Except.ok w2) :
    w2 = { balance := quantize2 w.balance } := by
  unfold Wallet.save Wallet.clean at h
  by_cases h1 : w.balance < 0
  · simp [h1, Except.map] at h
  · by_cases h2 : MAX_BALANCE < w.balance
    · simp [h1, h2, Except.map] at h
    · simp [h1, h2, Except.map] at h
      exact h.symm

/-! ## Claim theorems -/

/-- C10: `Transaction.save` does not restrict the status field to the
declared `STATUS_CHOICES` (`completed`, `failed`): its validation checks
only the amount, so a record with any status — in particular `pending` —
is persisted with that status unchanged, even though `pending` is not a
declared choice. -/
theorem c10_save_does_not_restrict_status :
    ("pending" ∉ STATUS_CHOICES) ∧
    ∀ t : Txn, 0 < t.amount → t.amount ≤ MAX_TRANSACTION →
      ∃ t2, Transaction.save t = Except.ok t2 ∧ t2.status = t.status := by
  constructor
  · decide
  · intro t h0 hM
    refine ⟨{ t with amount := quantize2 t.amount }, ?_, rfl⟩
    simp [Transaction.save, Transaction.clean, not_le.mpr h0, not_lt.mpr hM]

/-- A concrete `pending` purchase record used as the C10 witness input. -/
def pendingSample : Txn :=
  { transaction_type := "purchase", amount := 100, description := "Airtime VTU",
    reference := some "VTU-1-1700000000000", status := "pending" }

/-- Witness for C10: saving a concrete record with status `pending`
succeeds and keeps the status. -/
theorem c10_save_does_not_restrict_status_witness :
    ∃ t2, Transaction.save pendingSample = Except.ok t2 ∧ t2.status = pendingSample.status :=
  c10_save_does_not_restrict_status.2 pendingSample
    (by norm_num [pendingSample]) (by norm_num [pendingSample, MAX_TRANSACTION])

/-- C6: every operation that persists a wallet goes through
`Wallet.clean`, so a persisted balance always satisfies
`0 ≤ balance ≤ MAX_BALANCE` and is quantized to 2 decimal places, and a
save that would violate the bounds raises instead of persisting:
stated for `clean` (both directions), `save`, `deposit` and `purchase`
(refund credits in the orchestrators also persist via `Wallet.save`). -/
theorem c6_wallet_balance_invariant :
    (∀ b b2, Wallet.clean b = Except.ok b2 →
        0 ≤ b2 ∧ b2 ≤ MAX_BALANCE ∧ IsQuantized2 b2) ∧
    (∀ b, ¬ (0 ≤ b ∧ b ≤ MAX_BALANCE) → ∃ e, Wallet.clean b = Except.error e) ∧
    (∀ w w2, Wallet.save w = Except.ok w2 →
        0 ≤ w2.balance ∧ w2.balance ≤ MAX_BALANCE ∧ IsQuantized2 w2.balance) ∧
    (∀ w a d r now w2 t, Wallet.deposit w a d r now = Except.ok (w2, t) →
        0 ≤ w2.balance ∧ w2.balance ≤ MAX_BALANCE ∧ IsQuantized2 w2.balance) ∧
    (∀ w a d now w2 t, Wallet.purchase w a d now = Except.ok (w2, t) →
        0 ≤ w2.balance ∧ w2.balance ≤ MAX_BALANCE ∧ IsQuantized2 w2.balance) := by
  have hclean : ∀ b b2, Wallet.clean b = Except.ok b2 →
      0 ≤ b2 ∧ b2 ≤ MAX_BALANCE ∧ IsQuantized2 b2 := by
    intro b b2 h
    unfold Wallet.clean at h
    by_cases h1 : b < 0
    · simp [h1] at h
    · by_cases h2 : MAX_BALANCE < b
      · simp [h1, h2] at h
      · simp [h1, h2] at h
        subst h
        exact ⟨quantize2_nonneg (not_lt.mp h1),
          quantize2_le_MAX_BALANCE (not_lt.mp h2), quantize2_isQuantized b⟩
  have hsave : ∀ w w2, Wallet.save w = Except.ok w2 →
      0 ≤ w2.balance ∧ w2.balance ≤ MAX_BALANCE ∧ IsQuantized2 w2.balance := by
    intro w w2 h
    unfold Wallet.save at h
    cases hc : Wallet.clean w.balance with
    | error e => rw [hc] at h; simp [Except.map] at h
    | ok b2 =>
      rw [hc] at h
      simp [Except.map] at h
      have := hclean w.balance b2 hc
      rw [← h]
      exact this
  refine ⟨hclean, ?_, hsave, ?_, ?_⟩
  · intro b h
    by_cases h1 : b < 0
    · exact ⟨"Balance cannot be negative", by simp [Wallet.clean, h1]⟩
    · have h2 : MAX_BALANCE < b := by
        push_neg at h
        exact h (not_lt.mp h1)
      exact ⟨"Balance cannot exceed MAX_BALANCE", by simp [Wallet.clean, h1, h2]⟩
  · intro w a d r now w2 t h
    by_cases h1 : a ≤ 0
    · simp [Wallet.deposit, h1] at h
    · by_cases h2 : MAX_TRANSACTION < quantize2 a
      · simp [Wallet.deposit, h1, h2] at h
      · by_cases h3 : MAX_BALANCE < w.balance + quantize2 a
        · simp [Wallet.deposit, h1, h2, h3] at h
        · cases hsv : Wallet.save { balance := w.balance + quantize2 a } with
          | error e => simp [Wallet.deposit, h1, h2, h3, hsv] at h
          | ok w3 =>
            simp [Wallet.deposit, h1, h2, h3, hsv] at h
            split at h
            · simp at h
            · simp at h
              obtain ⟨hw2, _⟩ := h
              subst hw2
              exact hsave _ _ hsv
  · intro w a d now w2 t h
    by_cases h1 : a ≤ 0
    · simp [Wallet.purchase, h1] at h
    · by_cases h2 : MAX_TRANSACTION < quantize2 a
      · simp [Wallet.purchase, h1, h2] at h
      · by_cases h3 : w.balance < quantize2 a
        · simp [Wallet.purchase, h1, h2, h3] at h
        · cases hsv : Wallet.save { balance := w.balance - quantize2 a } with
          | error e => simp [Wallet.purchase, h1, h2, h3, hsv] at h
          | ok w3 =>
            simp [Wallet.purchase, h1, h2, h3, hsv] at h
            split at h
            · simp at h
            · simp at h
              obtain ⟨hw2, _⟩ := h
              subst hw2
              exact hsave _ _ hsv

/-- Witness for C6: a concrete in-bounds balance passes `clean` with the
bounds and quantization holding. -/
theorem c6_wallet_balance_invariant_witness :
    0 ≤ (500 : Money) ∧ (500 : Money) ≤ MAX_BALANCE ∧ IsQuantized2 (500 : Money) :=
  c6_wallet_balance_invariant.1 500 500
    (by norm_num [Wallet.clean, MAX_BALANCE, quantize2, roundHalfEven])

/-- C8: with the maintenance-mode flag on, every purchase attempt on every
service line aborts before any mutation (an `aborted` result carries no
state change: no record is created and the wallet is untouched), and any
attempt that passes the service-specific input validation aborts with the
maintenance policy violation — regardless of amount, user history, or the
fraud-checks flag. -/
theorem c8_maintenance_blocks_purchases :
    ∀ cfg : AppSettings, cfg.maintenance_mode = true →
    ∀ u rid now w amount,
    (∀ network phone gw,
        ∃ e, purchase_airtime cfg u rid now w network phone amount gw
          = OrchResult.aborted e) ∧
    (∀ network phone gw sid,
        NETWORK_SERVICE_ID_MAP.lookup (strip (lower network)) = some sid → 0 < amount →
        purchase_airtime cfg u rid now w network phone amount gw
          = OrchResult.aborted (PurchaseError.fraud maintenanceMsg)) ∧
    (∀ network phone variation_code gw,
        ∃ e, purchase_data cfg u rid now w network phone variation_code gw
          = OrchResult.aborted e) ∧
    (∀ network phone variation_code gw sid plan,
        NETWORK_DATA_SERVICE_ID_MAP.lookup (lower network) = some sid →
        resolve_data_plan (lower network) variation_code = Except.ok plan →
        purchase_data cfg u rid now w network phone variation_code gw
          = OrchResult.aborted (PurchaseError.fraud maintenanceMsg)) ∧
    (∀ disco mn mt phone verify gw,
        ∃ e, purchase_electricity cfg u rid now w disco mn mt amount phone verify gw
          = OrchResult.aborted e) ∧
    (∀ disco mn mt phone verify gw sid,
        DISCO_SERVICE_ID_MAP.lookup (strip (lower disco)) = some sid →
        (strip (lower mt) = "prepaid" ∨ strip (lower mt) = "postpaid") →
        0 < amount → strip mn ≠ "" → strip phone ≠ "" →
        purchase_electricity cfg u rid now w disco mn mt amount phone verify gw
          = OrchResult.aborted (PurchaseError.fraud maintenanceMsg)) := by
  intro cfg hm u rid now w amount
  have hrf : ∀ a, run_fraud_checks cfg u a = Except.error maintenanceMsg :=
    fun a => run_fraud_checks_maintenance u a hm
  refine ⟨?_, ?_, ?_, ?_, ?_, ?_⟩
  · intro network phone gw
    cases hl : NETWORK_SERVICE_ID_MAP.lookup (strip (lower network)) with
    | none => exact ⟨_, by simp [purchase_airtime, hl]; rfl⟩
    | some sid =>
      by_cases ha : amount ≤ 0
      · exact ⟨_, by simp [purchase_airtime, hl, ha]; rfl⟩
      · exact ⟨_, by simp [purchase_airtime, hl, ha, hrf]; rfl⟩
  · intro network phone gw sid hl hpos
    simp [purchase_airtime, hl, not_le.mpr hpos, hrf]
  · intro network phone variation_code gw
    cases hl : NETWORK_DATA_SERVICE_ID_MAP.lookup (lower network) with
    | none => exact ⟨_, by simp [purchase_data, hl]; rfl⟩
    | some sid =>
      cases hp : resolve_data_plan (lower network) variation_code with
      | error e => exact ⟨_, by simp [purchase_data, hl, hp]; rfl⟩
      | ok plan => exact ⟨_, by simp [purchase_data, hl, hp, hrf]; rfl⟩
  · intro network phone variation_code gw sid plan hl hp
    simp [purchase_data, hl, hp, hrf]
  · intro disco mn mt phone verify gw
    cases hl : DISCO_SERVICE_ID_MAP.lookup (strip (lower disco)) with
    | none => exact ⟨_, by simp [purchase_electricity, hl]; rfl⟩
    | some sid =>
      by_cases hmt : strip (lower mt) = "prepaid" ∨ strip (lower mt) = "postpaid"
      · by_cases ha : amount ≤ 0
        · exact ⟨_, by simp [purchase_electricity, hl, hmt, ha]; rfl⟩
        · by_cases hmn : strip mn = ""
          · exact ⟨_, by simp [purchase_electricity, hl, hmt, ha, hmn]; rfl⟩
          · by_cases hph : strip phone = ""
            · exact ⟨_, by simp [purchase_electricity, hl, hmt, ha, hmn, hph]; rfl⟩
            · exact ⟨_, by simp [purchase_electricity, hl, hmt, ha, hmn, hph, hrf]; rfl⟩
      · exact ⟨_, by simp [purchase_electricity, hl, hmt]; rfl⟩
  · intro disco mn mt phone verify gw sid hl hmt hpos hmn hph
    simp [purchase_electricity, hl, hmt, not_le.mpr hpos, hmn, hph, hrf]

/-- Witness for C8: with maintenance mode on, a concrete valid airtime
attempt aborts with the maintenance policy violation. -/
theorem c8_maintenance_blocks_purchases_witness :
    purchase_airtime { fraud_checks_enabled := true, maintenance_mode := true }
        { todayCompletedPurchaseTotal := 0, hourlyPurchaseCount := 0,
          failedCount24h := 0, accountYoungerThan5Min := false }
        "VTU-1-1" 0 { balance := 1000 } "mtn" "08030000000" 200 (Except.error "net")
      = OrchResult.aborted (PurchaseError.fraud maintenanceMsg) :=
  ((c8_maintenance_blocks_purchases
      { fraud_checks_enabled := true, maintenance_mode := true } rfl
      { todayCompletedPurchaseTotal := 0, hourlyPurchaseCount := 0,
        failedCount24h := 0, accountYoungerThan5Min := false }
      "VTU-1-1" 0 { balance := 1000 } 200).2.1)
    "mtn" "08030000000" (Except.error "net") "mtn" (by decide) (by norm_num)

/-- C9: with fraud checks enabled, whenever the rolling daily sum of the
user's completed purchases plus the proposed amount exceeds the tier's
daily ceiling, `run_fraud_checks` raises a policy violation, and a
purchase attempt aborts before any debit (an `aborted` result carries no
state change). -/
theorem c9_daily_ceiling_blocks :
    (∀ (cfg : AppSettings) u (a : Money), cfg.fraud_checks_enabled = true →
        (get_transaction_limits u).daily_limit < u.todayCompletedPurchaseTotal + a →
        ∃ m, run_fraud_checks cfg u a = Except.error m) ∧
    (∀ (cfg : AppSettings) u rid now w network phone (a : Money) gw sid,
        cfg.fraud_checks_enabled = true →
        NETWORK_SERVICE_ID_MAP.lookup (strip (lower network)) = some sid →
        0 < a →
        (get_transaction_limits u).daily_limit < u.todayCompletedPurchaseTotal + a →
        ∃ m, purchase_airtime cfg u rid now w network phone a gw
          = OrchResult.aborted (PurchaseError.fraud m)) := by
  have hbase : ∀ (cfg : AppSettings) u (a : Money), cfg.fraud_checks_enabled = true →
      (get_transaction_limits u).daily_limit < u.todayCompletedPurchaseTotal + a →
      ∃ m, run_fraud_checks cfg u a = Except.error m := by
    intro cfg u a hf hd
    by_cases hm : cfg.maintenance_mode = true
    · exact ⟨maintenanceMsg, run_fraud_checks_maintenance u a hm⟩
    · have hmf : cfg.maintenance_mode = false := by
        simpa using hm
      by_cases hs : (get_transaction_limits u).single_limit < a
      · exact ⟨_, by simp [run_fraud_checks, check_maintenance_mode, hmf, hf,
          check_transaction_limits, hs]; rfl⟩
      · exact ⟨_, by simp [run_fraud_checks, check_maintenance_mode, hmf, hf,
          check_transaction_limits, hs, hd]; rfl⟩
  refine ⟨hbase, ?_⟩
  intro cfg u rid now w network phone a gw sid hf hl hpos hd
  obtain ⟨m, hrf⟩ := hbase cfg u a hf hd
  exact ⟨m, by simp [purchase_airtime, hl, not_le.mpr hpos, hrf]⟩

/-- Witness for C9 (Scenario D): an unverified user with 19,900 completed
today attempts a 200 purchase against the 20,000 daily ceiling and is
rejected at the policy gate. -/
theorem c9_daily_ceiling_blocks_witness :
    ∃ m, purchase_airtime { fraud_checks_enabled := true, maintenance_mode := false }
        { todayCompletedPurchaseTotal := 19900, hourlyPurchaseCount := 0,
          failedCount24h := 0, accountYoungerThan5Min := false }
        "VTU-1-1" 0 { balance := 1000 } "mtn" "08030000000" 200 (Except.error "net")
      = OrchResult.aborted (PurchaseError.fraud m) :=
  c9_daily_ceiling_blocks.2 { fraud_checks_enabled := true, maintenance_mode := false }
    { todayCompletedPurchaseTotal := 19900, hourlyPurchaseCount := 0,
      failedCount24h := 0, accountYoungerThan5Min := false }
    "VTU-1-1" 0 { balance := 1000 } "mtn" "08030000000" 200 (Except.error "net") "mtn"
    rfl (by decide) (by norm_num)
    (by norm_num [get_transaction_limits, is_user_verified, UNVERIFIED_LIMITS])

/-- C7: on every service line, when the reserve step succeeded and the
gateway purchase call raises a transport/provider error (`VTPassError`:
connect timeout, read timeout, network error, non-JSON body), the
orchestration re-raises with the record still `pending` and the wallet
still debited by the amount — no refund and no transition to `failed`. -/
theorem c7_transport_error_leaves_pending :
    (∀ (cfg : AppSettings) u rid (now : ℤ) (w : Wallet) network phone (a : Money) e sid,
      NETWORK_SERVICE_ID_MAP.lookup (strip (lower network)) = some sid →
      0 < a → a ≤ MAX_TRANSACTION → IsQuantized2 a →
      run_fraud_checks cfg u a = Except.ok () →
      a ≤ w.balance → w.balance ≤ MAX_BALANCE → IsQuantized2 w.balance →
      purchase_airtime cfg u rid now w network phone a (Except.error e)
        = OrchResult.raised (PurchaseError.provider e) { balance := w.balance - a }
            (airtimePendingTxn rid now (strip (lower network)) phone a)
        ∧ (airtimePendingTxn rid now (strip (lower network)) phone a).status = "pending") ∧
    (∀ (cfg : AppSettings) u rid (now : ℤ) (w : Wallet) network phone variation_code e sid plan,
      NETWORK_DATA_SERVICE_ID_MAP.lookup (lower network) = some sid →
      resolve_data_plan (lower network) variation_code = Except.ok plan →
      0 < plan.amount → plan.amount ≤ MAX_TRANSACTION → IsQuantized2 plan.amount →
      run_fraud_checks cfg u plan.amount = Except.ok () →
      plan.amount ≤ w.balance → w.balance ≤ MAX_BALANCE → IsQuantized2 w.balance →
      purchase_data cfg u rid now w network phone variation_code (Except.error e)
        = OrchResult.raised (PurchaseError.provider e) { balance := w.balance - plan.amount }
            (dataPendingTxn rid now plan phone)
        ∧ (dataPendingTxn rid now plan phone).status = "pending") ∧
    (∀ (cfg : AppSettings) u rid (now : ℤ) (w : Wallet) disco mn mt (a : Money) phone vraw e sid,
      DISCO_SERVICE_ID_MAP.lookup (strip (lower disco)) = some sid →
      (strip (lower mt) = "prepaid" ∨ strip (lower mt) = "postpaid") →
      0 < a → a ≤ MAX_TRANSACTION → IsQuantized2 a →
      strip mn ≠ "" → strip phone ≠ "" →
      run_fraud_checks cfg u a = Except.ok () →
      ((normalizeResponse vraw).code.getD "") = "000" →
      a ≤ w.balance → w.balance ≤ MAX_BALANCE → IsQuantized2 w.balance →
      purchase_electricity cfg u rid now w disco mn mt a phone (Except.ok vraw)
          (Except.error e)
        = OrchResult.raised (PurchaseError.provider e) { balance := w.balance - a }
            (elecPendingTxn rid now (strip (lower disco)) (strip (lower mt)) (strip mn) a)
        ∧ (elecPendingTxn rid now (strip (lower disco)) (strip (lower mt)) (strip mn) a).status
            = "pending") := by
  refine ⟨?_, ?_, ?_⟩
  · intro cfg u rid now w network phone a e sid hl hpos haM hqa hfr hbal hbM hqb
    have hts : Transaction.save (airtimePendingTxn rid now (strip (lower network)) phone a)
        = Except.ok (airtimePendingTxn rid now (strip (lower network)) phone a) :=
      transaction_save_fix hpos haM hqa
    have hws : Wallet.save { balance := w.balance - a }
        = Except.ok { balance := w.balance - a } :=
      wallet_save_fix (by linarith) (by linarith) (hqb.sub hqa)
    refine ⟨?_, rfl⟩
    simp [purchase_airtime, hl, not_le.mpr hpos, hfr, not_lt.mpr hbal, hts, hws]
  · intro cfg u rid now w network phone variation_code e sid plan hl hp hpos haM hqa hfr hbal hbM hqb
    have hts : Transaction.save (dataPendingTxn rid now plan phone)
        = Except.ok (dataPendingTxn rid now plan phone) :=
      transaction_save_fix hpos haM hqa
    have hws : Wallet.save { balance := w.balance - plan.amount }
        = Except.ok { balance := w.balance - plan.amount } :=
      wallet_save_fix (by linarith) (by linarith) (hqb.sub hqa)
    refine ⟨?_, rfl⟩
    simp [purchase_data, hl, hp, hfr, not_lt.mpr hbal, hts, hws]
  · intro cfg u rid now w disco mn mt a phone vraw e sid hl hmt hpos haM hqa hmn hph hfr hv hbal hbM hqb
    have hts : Transaction.save
          (elecPendingTxn rid now (strip (lower disco)) (strip (lower mt)) (strip mn) a)
        = Except.ok (elecPendingTxn rid now (strip (lower disco)) (strip (lower mt)) (strip mn) a) :=
      transaction_save_fix hpos haM hqa
    have hws : Wallet.save { balance := w.balance - a }
        = Except.ok { balance := w.balance - a } :=
      wallet_save_fix (by linarith) (by linarith) (hqb.sub hqa)
    refine ⟨?_, rfl⟩
    simp [purchase_electricity, hl, hmt, not_le.mpr hpos, hmn, hph, hfr, hv, not_lt.mpr hbal,
      hts, hws]

/-- Witness for C7 (Scenario C shape): a 300 airtime purchase from a
1000 balance whose provider call times out leaves a pending record and a
700 balance. -/
theorem c7_transport_error_leaves_pending_witness :
    purchase_airtime { fraud_checks_enabled := false, maintenance_mode := false }
        { todayCompletedPurchaseTotal := 0, hourlyPurchaseCount := 0,
          failedCount24h := 0, accountYoungerThan5Min := false }
        "VTU-1-1" 0 { balance := 1000 } "mtn" "08030000000" 300
        (Except.error "Connection to VTPass timed out. Please try again.")
      = OrchResult.raised
          (PurchaseError.provider "Connection to VTPass timed out. Please try again.")
          { balance := 700 }
          (airtimePendingTxn "VTU-1-1" 0 (strip (lower "mtn")) "08030000000" 300)
      ∧ (airtimePendingTxn "VTU-1-1" 0 (strip (lower "mtn")) "08030000000" 300).status
          = "pending" := by
  have h := (c7_transport_error_leaves_pending.1)
    { fraud_checks_enabled := false, maintenance_mode := false }
    { todayCompletedPurchaseTotal := 0, hourlyPurchaseCount := 0,
      failedCount24h := 0, accountYoungerThan5Min := false }
    "VTU-1-1" 0 { balance := 1000 } "mtn" "08030000000" 300
    "Connection to VTPass timed out. Please try again." "mtn"
    (by decide) (by norm_num) (by norm_num [MAX_TRANSACTION])
    ⟨30000, by norm_num⟩ (run_fraud_checks_disabled _ 300 rfl rfl)
    (by norm_num) (by norm_num [MAX_BALANCE]) ⟨100000, by norm_num⟩
  have h1000 : (1000 : Money) - 300 = 700 := by norm_num
  rw [h1000] at h
  exact h

/-! ## Finalize-branch run lemmas

One lemma per service line and per finalize branch, characterizing the
full orchestration result when the reserve step succeeds and the gateway
returns a parsed body. -/

theorem airtimePendingTxn_amount (rid : String) (now : ℤ) (nk phone : String) (a : Money) :
    (airtimePendingTxn rid now nk phone a).amount = a := rfl

theorem dataPendingTxn_amount (rid : String) (now : ℤ) (plan : DataPlan) (phone : String) :
    (dataPendingTxn rid now plan phone).amount = plan.amount := rfl

theorem elecPendingTxn_amount (rid : String) (now : ℤ) (dk mt mn : String) (a : Money) :
    (elecPendingTxn rid now dk mt mn a).amount = a := rfl

theorem airtime_run_completed
    {cfg : AppSettings} {u : UserState} {rid : String} {now : ℤ} {w : Wallet}
    {network phone : String} {a : Money} {raw : ProviderResponse} {sid : String}
    (hl : NETWORK_SERVICE_ID_MAP.lookup (strip (lower network)) = some sid)
    (hpos : 0 < a) (haM : a ≤ MAX_TRANSACTION) (hqa : IsQuantized2 a)
    (hfr : run_fraud_checks cfg u a = Except.ok ())
    (hbal : a ≤ w.balance) (hbM : w.balance ≤ MAX_BALANCE) (hqb : IsQuantized2 w.balance)
    (hsucc : (respCode (normalizeResponse raw) = "000"
        ∨ respCode (normalizeResponse raw) = "0000")
      ∧ (respStatus (normalizeResponse raw) = "delivered"
        ∨ respStatus (normalizeResponse raw) = "success")) :
    (purchase_airtime cfg u rid now w network phone a (Except.ok raw)).statusAfter
        = some "completed"
    ∧ (purchase_airtime cfg u rid now w network phone a (Except.ok raw)).walletAfter w
        = { balance := w.balance - a } := by
  have hts := transaction_save_fix
    (t := airtimePendingTxn rid now (strip (lower network)) phone a) hpos haM hqa
  have hws : Wallet.save { balance := w.balance - a }
      = Except.ok { balance := w.balance - a } :=
    wallet_save_fix (by linarith) (by linarith) (hqb.sub hqa)
  simp only [purchase_airtime, hl, hfr, hts, hws, not_le.mpr hpos, if_neg,
    not_lt.mpr hbal, if_false]
  rw [if_pos hsucc]
  split
  · rename_i e hsv
    have hb := Transaction.save_error_amount hsv
    simp only [airtimePendingTxn] at hb
    rcases hb with hb | hb
    · exact absurd hb (not_le.mpr hpos)
    · exact absurd hb (not_lt.mpr haM)
  · rename_i tx2 hsv
    have h2 := transaction_save_ok_eq hsv
    subst h2
    simp [OrchResult.statusAfter, OrchResult.txAfter, OrchResult.walletAfter]

theorem airtime_run_pending
    {cfg : AppSettings} {u : UserState} {rid : String} {now : ℤ} {w : Wallet}
    {network phone : String} {a : Money} {raw : ProviderResponse} {sid : String}
    (hl : NETWORK_SERVICE_ID_MAP.lookup (strip (lower network)) = some sid)
    (hpos : 0 < a) (haM : a ≤ MAX_TRANSACTION) (hqa : IsQuantized2 a)
    (hfr : run_fraud_checks cfg u a = Except.ok ())
    (hbal : a ≤ w.balance) (hbM : w.balance ≤ MAX_BALANCE) (hqb : IsQuantized2 w.balance)
    (hns : ¬ ((respCode (normalizeResponse raw) = "000"
        ∨ respCode (normalizeResponse raw) = "0000")
      ∧ (respStatus (normalizeResponse raw) = "delivered"
        ∨ respStatus (normalizeResponse raw) = "success")))
    (hpend : respStatus (normalizeResponse raw) = "pending"
      ∨ respStatus (normalizeResponse raw) = "processing") :
    (purchase_airtime cfg u rid now w network phone a (Except.ok raw)).statusAfter
        = some "pending"
    ∧ (purchase_airtime cfg u rid now w network phone a (Except.ok raw)).walletAfter w
        = { balance := w.balance - a } := by
  have hts := transaction_save_fix
    (t := airtimePendingTxn rid now (strip (lower network)) phone a) hpos haM hqa
  have hws : Wallet.save { balance := w.balance - a }
      = Except.ok { balance := w.balance - a } :=
    wallet_save_fix (by linarith) (by linarith) (hqb.sub hqa)
  simp only [purchase_airtime, hl, hfr, hts, hws, not_le.mpr hpos, if_neg,
    not_lt.mpr hbal, if_false]
  rw [if_neg hns, if_pos hpend]
  split
  · rename_i e hsv
    have hb := Transaction.save_error_amount hsv
    simp only [airtimePendingTxn] at hb
    rcases hb with hb | hb
    · exact absurd hb (not_le.mpr hpos)
    · exact absurd hb (not_lt.mpr haM)
  · rename_i tx2 hsv
    have h2 := transaction_save_ok_eq hsv
    subst h2
    simp [OrchResult.statusAfter, OrchResult.txAfter, OrchResult.walletAfter]

theorem airtime_run_failed
    {cfg : AppSettings} {u : UserState} {rid : String} {now : ℤ} {w : Wallet}
    {network phone : String} {a : Money} {raw : ProviderResponse} {sid : String}
    (hl : NETWORK_SERVICE_ID_MAP.lookup (strip (lower network)) = some sid)
    (hpos : 0 < a) (haM : a ≤ MAX_TRANSACTION) (hqa : IsQuantized2 a)
    (hfr : run_fraud_checks cfg u a = Except.ok ())
    (hbal : a ≤ w.balance) (hbM : w.balance ≤ MAX_BALANCE) (hqb : IsQuantized2 w.balance)
    (hns : ¬ ((respCode (normalizeResponse raw) = "000"
        ∨ respCode (normalizeResponse raw) = "0000")
      ∧ (respStatus (normalizeResponse raw) = "delivered"
        ∨ respStatus (normalizeResponse raw) = "success")))
    (hnp : ¬ (respStatus (normalizeResponse raw) = "pending"
      ∨ respStatus (normalizeResponse raw) = "processing")) :
    (purchase_airtime cfg u rid now w network phone a (Except.ok raw)).statusAfter
        = some "failed"
    ∧ (purchase_airtime cfg u rid now w network phone a (Except.ok raw)).walletAfter w
        = { balance := w.balance } := by
  have hts := transaction_save_fix
    (t := airtimePendingTxn rid now (strip (lower network)) phone a) hpos haM hqa
  have hws : Wallet.save { balance := w.balance - a }
      = Except.ok { balance := w.balance - a } :=
    wallet_save_fix (by linarith) (by linarith) (hqb.sub hqa)
  have hws2 : Wallet.save { balance := w.balance }
      = Except.ok { balance := w.balance } :=
    wallet_save_fix (by linarith) hbM hqb
  simp only [purchase_airtime, hl, hfr, hts, hws, not_le.mpr hpos, if_neg,
    not_lt.mpr hbal, if_false]
  rw [if_neg hns, if_neg hnp]
  split
  · rename_i e hsv
    have hb := Transaction.save_error_amount hsv
    simp only [airtimePendingTxn] at hb
    rcases hb with hb | hb
    · exact absurd hb (not_le.mpr hpos)
    · exact absurd hb (not_lt.mpr haM)
  · rename_i tx2 hsv
    have h2 := transaction_save_ok_eq hsv
    subst h2
    simp [OrchResult.statusAfter, OrchResult.txAfter, OrchResult.walletAfter,
      sub_add_cancel_right, hws2]

theorem data_run_completed
    {cfg : AppSettings} {u : UserState} {rid : String} {now : ℤ} {w : Wallet}
    {network phone variation_code : String} {raw : ProviderResponse} {sid : String}
    {plan : DataPlan}
    (hl : NETWORK_DATA_SERVICE_ID_MAP.lookup (lower network) = some sid)
    (hp : resolve_data_plan (lower network) variation_code = Except.ok plan)
    (hpos : 0 < plan.amount) (haM : plan.amount ≤ MAX_TRANSACTION)
    (hqa : IsQuantized2 plan.amount)
    (hfr : run_fraud_checks cfg u plan.amount = Except.ok ())
    (hbal : plan.amount ≤ w.balance) (hbM : w.balance ≤ MAX_BALANCE)
    (hqb : IsQuantized2 w.balance)
    (hsucc : (respCode (normalizeResponse raw) = "000"
        ∨ respCode (normalizeResponse raw) = "0000")
      ∧ (respStatus (normalizeResponse raw) = "delivered"
        ∨ respStatus (normalizeResponse raw) = "success")) :
    (purchase_data cfg u rid now w network phone variation_code (Except.ok raw)).statusAfter
        = some "completed"
    ∧ (purchase_data cfg u rid now w network phone variation_code
          (Except.ok raw)).walletAfter w
        = { balance := w.balance - plan.amount } := by
  have hts := transaction_save_fix (t := dataPendingTxn rid now plan phone) hpos haM hqa
  have hws : Wallet.save { balance := w.balance - plan.amount }
      = Except.ok { balance := w.balance - plan.amount } :=
    wallet_save_fix (by linarith) (by linarith) (hqb.sub hqa)
  simp only [purchase_data, hl, hp, hfr, hts, hws, not_lt.mpr hbal, if_neg, if_false]
  rw [if_pos hsucc]
  split
  · rename_i e hsv
    have hb := Transaction.save_error_amount hsv
    simp only [dataPendingTxn] at hb
    rcases hb with hb | hb
    · exact absurd hb (not_le.mpr hpos)
    · exact absurd hb (not_lt.mpr haM)
  · rename_i tx2 hsv
    have h2 := transaction_save_ok_eq hsv
    subst h2
    simp [OrchResult.statusAfter, OrchResult.txAfter, OrchResult.walletAfter]

theorem data_run_pending
    {cfg : AppSettings} {u : UserState} {rid : String} {now : ℤ} {w : Wallet}
    {network phone variation_code : String} {raw : ProviderResponse} {sid : String}
    {plan : DataPlan}
    (hl : NETWORK_DATA_SERVICE_ID_MAP.lookup (lower network) = some sid)
    (hp : resolve_data_plan (lower network) variation_code = Except.ok plan)
    (hpos : 0 < plan.amount) (haM : plan.amount ≤ MAX_TRANSACTION)
    (hqa : IsQuantized2 plan.amount)
    (hfr : run_fraud_checks cfg u plan.amount = Except.ok ())
    (hbal : plan.amount ≤ w.balance) (hbM : w.balance ≤ MAX_BALANCE)
    (hqb : IsQuantized2 w.balance)
    (hns : ¬ ((respCode (normalizeResponse raw) = "000"
        ∨ respCode (normalizeResponse raw) = "0000")
      ∧ (respStatus (normalizeResponse raw) = "delivered"
        ∨ respStatus (normalizeResponse raw) = "success")))
    (hpend : respStatus (normalizeResponse raw) = "pending"
      ∨ respStatus (normalizeResponse raw) = "processing"
      ∨ respStatus (normalizeResponse raw) = "") :
    (purchase_data cfg u rid now w network phone variation_code (Except.ok raw)).statusAfter
        = some "pending"
    ∧ (purchase_data cfg u rid now w network phone variation_code
          (Except.ok raw)).walletAfter w
        = { balance := w.balance - plan.amount } := by
  have hts := transaction_save_fix (t := dataPendingTxn rid now plan phone) hpos haM hqa
  have hws : Wallet.save { balance := w.balance - plan.amount }
      = Except.ok { balance := w.balance - plan.amount } :=
    wallet_save_fix (by linarith) (by linarith) (hqb.sub hqa)
  simp only [purchase_data, hl, hp, hfr, hts, hws, not_lt.mpr hbal, if_neg, if_false]
  rw [if_neg hns, if_pos hpend]
  split
  · rename_i e hsv
    have hb := Transaction.save_error_amount hsv
    simp only [dataPendingTxn] at hb
    rcases hb with hb | hb
    · exact absurd hb (not_le.mpr hpos)
    · exact absurd hb (not_lt.mpr haM)
  · rename_i tx2 hsv
    have h2 := transaction_save_ok_eq hsv
    subst h2
    simp [OrchResult.statusAfter, OrchResult.txAfter, OrchResult.walletAfter]

theorem data_run_failed
    {cfg : AppSettings} {u : UserState} {rid : String} {now : ℤ} {w : Wallet}
    {network phone variation_code : String} {raw : ProviderResponse} {sid : String}
    {plan : DataPlan}
    (hl : NETWORK_DATA_SERVICE_ID_MAP.lookup (lower network) = some sid)
    (hp : resolve_data_plan (lower network) variation_code = Except.ok plan)
    (hpos : 0 < plan.amount) (haM : plan.amount ≤ MAX_TRANSACTION)
    (hqa : IsQuantized2 plan.amount)
    (hfr : run_fraud_checks cfg u plan.amount = Except.ok ())
    (hbal : plan.amount ≤ w.balance) (hbM : w.balance ≤ MAX_BALANCE)
    (hqb : IsQuantized2 w.balance)
    (hns : ¬ ((respCode (normalizeResponse raw) = "000"
        ∨ respCode (normalizeResponse raw) = "0000")
      ∧ (respStatus (normalizeResponse raw) = "delivered"
        ∨ respStatus (normalizeResponse raw) = "success")))
    (hnp : ¬ (respStatus (normalizeResponse raw) = "pending"
      ∨ respStatus (normalizeResponse raw) = "processing"
      ∨ respStatus (normalizeResponse raw) = "")) :
    (purchase_data cfg u rid now w network phone variation_code (Except.ok raw)).statusAfter
        = some "failed"
    ∧ (purchase_data cfg u rid now w network phone variation_code
          (Except.ok raw)).walletAfter w
        = { balance := w.balance } := by
  have hts := transaction_save_fix (t := dataPendingTxn rid now plan phone) hpos haM hqa
  have hws : Wallet.save { balance := w.balance - plan.amount }
      = Except.ok { balance := w.balance - plan.amount } :=
    wallet_save_fix (by linarith) (by linarith) (hqb.sub hqa)
  have hws2 : Wallet.save { balance := w.balance }
      = Except.ok { balance := w.balance } :=
    wallet_save_fix (by linarith) hbM hqb
  simp only [purchase_data, hl, hp, hfr, hts, hws, not_lt.mpr hbal, if_neg, if_false]
  rw [if_neg hns, if_neg hnp]
  split
  · rename_i e hsv
    have hb := Transaction.save_error_amount hsv
    simp only [dataPendingTxn] at hb
    rcases hb with hb | hb
    · exact absurd hb (not_le.mpr hpos)
    · exact absurd hb (not_lt.mpr haM)
  · rename_i tx2 hsv
    have h2 := transaction_save_ok_eq hsv
    subst h2
    simp [OrchResult.statusAfter, OrchResult.txAfter, OrchResult.walletAfter,
      dataPendingTxn, quantize2_of_isQuantized hqa, sub_add_cancel_right, hws2]

theorem elec_run_completed
    {cfg : AppSettings} {u : UserState} {rid : String} {now : ℤ} {w : Wallet}
    {disco mn mt : String} {a : Money} {phone : String}
    {vraw raw : ProviderResponse} {sid : String}
    (hl : DISCO_SERVICE_ID_MAP.lookup (strip (lower disco)) = some sid)
    (hmt : strip (lower mt) = "prepaid" ∨ strip (lower mt) = "postpaid")
    (hpos : 0 < a) (haM : a ≤ MAX_TRANSACTION) (hqa : IsQuantized2 a)
    (hmn : strip mn ≠ "") (hph : strip phone ≠ "")
    (hfr : run_fraud_checks cfg u a = Except.ok ())
    (hv : ((normalizeResponse vraw).code.getD "") = "000")
    (hbal : a ≤ w.balance) (hbM : w.balance ≤ MAX_BALANCE) (hqb : IsQuantized2 w.balance)
    (hsucc : respCode (normalizeResponse raw) = "000"
      ∧ respStatus (normalizeResponse raw) = "delivered") :
    (purchase_electricity cfg u rid now w disco mn mt a phone (Except.ok vraw)
        (Except.ok raw)).statusAfter = some "completed"
    ∧ (purchase_electricity cfg u rid now w disco mn mt a phone (Except.ok vraw)
        (Except.ok raw)).walletAfter w = { balance := w.balance - a } := by
  have hts := transaction_save_fix
    (t := elecPendingTxn rid now (strip (lower disco)) (strip (lower mt)) (strip mn) a)
    hpos haM hqa
  have hws : Wallet.save { balance := w.balance - a }
      = Except.ok { balance := w.balance - a } :=
    wallet_save_fix (by linarith) (by linarith) (hqb.sub hqa)
  simp only [purchase_electricity, hl, not_not_intro hmt, hfr, hv, hts, hws,
    not_le.mpr hpos, hmn, hph, if_neg, not_lt.mpr hbal, if_false, ne_eq,
    not_true_eq_false, not_false_eq_true, if_true]
  rw [if_pos hsucc]
  by_cases htok : strip ((orStr (normalizeResponse raw).token
      (orStr (normalizeResponse raw).purchased_code
        (normalizeResponse raw).content_token)).getD "") = ""
  · rw [if_neg (not_not_intro htok)]
    split
    · rename_i e hsv
      have hb := Transaction.save_error_amount hsv
      simp only [elecPendingTxn] at hb
      rcases hb with hb | hb
      · exact absurd hb (not_le.mpr hpos)
      · exact absurd hb (not_lt.mpr haM)
    · rename_i tx2 hsv
      have h2 := transaction_save_ok_eq hsv
      subst h2
      simp [OrchResult.statusAfter, OrchResult.txAfter, OrchResult.walletAfter]
  · rw [if_pos htok]
    split
    · rename_i e hsv
      have hb := Transaction.save_error_amount hsv
      simp only [elecPendingTxn] at hb
      rcases hb with hb | hb
      · exact absurd hb (not_le.mpr hpos)
      · exact absurd hb (not_lt.mpr haM)
    · rename_i tx2 hsv
      have h2 := transaction_save_ok_eq hsv
      subst h2
      simp [OrchResult.statusAfter, OrchResult.txAfter, OrchResult.walletAfter]

theorem elec_run_pending
    {cfg : AppSettings} {u : UserState} {rid : String} {now : ℤ} {w : Wallet}
    {disco mn mt : String} {a : Money} {phone : String}
    {vraw raw : ProviderResponse} {sid : String}
    (hl : DISCO_SERVICE_ID_MAP.lookup (strip (lower disco)) = some sid)
    (hmt : strip (lower mt) = "prepaid" ∨ strip (lower mt) = "postpaid")
    (hpos : 0 < a) (haM : a ≤ MAX_TRANSACTION) (hqa : IsQuantized2 a)
    (hmn : strip mn ≠ "") (hph : strip phone ≠ "")
    (hfr : run_fraud_checks cfg u a = Except.ok ())
    (hv : ((normalizeResponse vraw).code.getD "") = "000")
    (hbal : a ≤ w.balance) (hbM : w.balance ≤ MAX_BALANCE) (hqb : IsQuantized2 w.balance)
    (hns : ¬ (respCode (normalizeResponse raw) = "000"
      ∧ respStatus (normalizeResponse raw) = "delivered"))
    (hpend : respStatus (normalizeResponse raw) = "pending"
      ∨ respStatus (normalizeResponse raw) = "processing"
      ∨ respStatus (normalizeResponse raw) = "") :
    (purchase_electricity cfg u rid now w disco mn mt a phone (Except.ok vraw)
        (Except.ok raw)).statusAfter = some "pending"
    ∧ (purchase_electricity cfg u rid now w disco mn mt a phone (Except.ok vraw)
        (Except.ok raw)).walletAfter w = { balance := w.balance - a } := by
  have hts := transaction_save_fix
    (t := elecPendingTxn rid now (strip (lower disco)) (strip (lower mt)) (strip mn) a)
    hpos haM hqa
  have hws : Wallet.save { balance := w.balance - a }
      = Except.ok { balance := w.balance - a } :=
    wallet_save_fix (by linarith) (by linarith) (hqb.sub hqa)
  simp only [purchase_electricity, hl, not_not_intro hmt, hfr, hv, hts, hws,
    not_le.mpr hpos, hmn, hph, if_neg, not_lt.mpr hbal, if_false, ne_eq,
    not_true_eq_false, not_false_eq_true, if_true]
  rw [if_neg hns, if_pos hpend]
  split
  · rename_i e hsv
    have hb := Transaction.save_error_amount hsv
    simp only [elecPendingTxn] at hb
    rcases hb with hb | hb
    · exact absurd hb (not_le.mpr hpos)
    · exact absurd hb (not_lt.mpr haM)
  · rename_i tx2 hsv
    have h2 := transaction_save_ok_eq hsv
    subst h2
    simp [OrchResult.statusAfter, OrchResult.txAfter, OrchResult.walletAfter]

theorem elec_run_failed
    {cfg : AppSettings} {u : UserState} {rid : String} {now : ℤ} {w : Wallet}
    {disco mn mt : String} {a : Money} {phone : String}
    {vraw raw : ProviderResponse} {sid : String}
    (hl : DISCO_SERVICE_ID_MAP.lookup (strip (lower disco)) = some sid)
    (hmt : strip (lower mt) = "prepaid" ∨ strip (lower mt) = "postpaid")
    (hpos : 0 < a) (haM : a ≤ MAX_TRANSACTION) (hqa : IsQuantized2 a)
    (hmn : strip mn ≠ "") (hph : strip phone ≠ "")
    (hfr : run_fraud_checks cfg u a = Except.ok ())
    (hv : ((normalizeResponse vraw).code.getD "") = "000")
    (hbal : a ≤ w.balance) (hbM : w.balance ≤ MAX_BALANCE) (hqb : IsQuantized2 w.balance)
    (hns : ¬ (respCode (normalizeResponse raw) = "000"
      ∧ respStatus (normalizeResponse raw) = "delivered"))
    (hnp : ¬ (respStatus (normalizeResponse raw) = "pending"
      ∨ respStatus (normalizeResponse raw) = "processing"
      ∨ respStatus (normalizeResponse raw) = "")) :
    (purchase_electricity cfg u rid now w disco mn mt a phone (Except.ok vraw)
        (Except.ok raw)).statusAfter = some "failed"
    ∧ (purchase_electricity cfg u rid now w disco mn mt a phone (Except.ok vraw)
        (Except.ok raw)).walletAfter w = { balance := w.balance } := by
  have hts := transaction_save_fix
    (t := elecPendingTxn rid now (strip (lower disco)) (strip (lower mt)) (strip mn) a)
    hpos haM hqa
  have hws : Wallet.save { balance := w.balance - a }
      = Except.ok { balance := w.balance - a } :=
    wallet_save_fix (by linarith) (by linarith) (hqb.sub hqa)
  have hws2 : Wallet.save { balance := w.balance }
      = Except.ok { balance := w.balance } :=
    wallet_save_fix (by linarith) hbM hqb
  simp only [purchase_electricity, hl, not_not_intro hmt, hfr, hv, hts, hws,
    not_le.mpr hpos, hmn, hph, if_neg, not_lt.mpr hbal, if_false, ne_eq,
    not_true_eq_false, not_false_eq_true, if_true]
  rw [if_neg hns, if_neg hnp]
  split
  · rename_i e hsv
    have hb := Transaction.save_error_amount hsv
    simp only [elecPendingTxn] at hb
    rcases hb with hb | hb
    · exact absurd hb (not_le.mpr hpos)
    · exact absurd hb (not_lt.mpr haM)
  · rename_i tx2 hsv
    have h2 := transaction_save_ok_eq hsv
    subst h2
    simp [OrchResult.statusAfter, OrchResult.txAfter, OrchResult.walletAfter,
      elecPendingTxn, quantize2_of_isQuantized hqa, sub_add_cancel_right, hws2]

/-- A configuration with fraud checks off and maintenance off (sandbox). -/
def cfgOff : AppSettings := { fraud_checks_enabled := false, maintenance_mode := false }

/-- A user with no transaction history. -/
def freshUser : UserState :=
  { todayCompletedPurchaseTotal := 0, hourlyPurchaseCount := 0,
    failedCount24h := 0, accountYoungerThan5Min := false }

/-- C1 counterexample: a data purchase whose provider response carries an
explicit failure code `"016"` but no nested `content.transactions.status`
(so the extracted status is the empty string) is left `pending` with the
wallet still debited (500 − 100 = 400), not set to `failed` with a
refund as the claim states. -/
theorem c1_sync_finalize_refund_counterexample :
    (purchase_data cfgOff freshUser "DATA-1-1" 0 { balance := 500 } "mtn" "08030000000"
        "mtn-10mb-100" (Except.ok { code := some "016" })).statusAfter = some "pending"
    ∧ (purchase_data cfgOff freshUser "DATA-1-1" 0 { balance := 500 } "mtn" "08030000000"
        "mtn-10mb-100" (Except.ok { code := some "016" })).walletAfter { balance := 500 }
      = { balance := 400 } := by
  have h := @data_run_pending cfgOff freshUser "DATA-1-1" 0 { balance := 500 } "mtn"
    "08030000000" "mtn-10mb-100" { code := some "016" } "mtn-data"
    { code := "mtn-10mb-100", name := "MTN 100MB", amount := 100 }
    (by decide) rfl (by norm_num) (by norm_num [MAX_TRANSACTION]) ⟨10000, by norm_num⟩
    (run_fraud_checks_disabled _ _ rfl rfl) (by norm_num) (by norm_num [MAX_BALANCE])
    ⟨50000, by norm_num⟩ (by decide) (Or.inr (Or.inr (by decide)))
  refine ⟨h.1, ?_⟩
  have h2 := h.2
  have h500 : (500 : Money) - 100 = 400 := by norm_num
  rw [h500] at h2
  exact h2

/-- C1 (amended): when a purchase reaches the synchronous finalize step
with a provider result that is neither success nor a pending/processing
status — and, for the data and electricity lines, whose nested status is
additionally non-empty (an empty/missing status is left pending there) —
the record is set to `failed` and the wallet is credited back by exactly
the original amount, so the balance equals its pre-purchase value. -/
theorem c1_sync_finalize_refund_amended :
    (∀ (cfg : AppSettings) u rid (now : ℤ) (w : Wallet) network phone (a : Money) raw sid,
      NETWORK_SERVICE_ID_MAP.lookup (strip (lower network)) = some sid →
      0 < a → a ≤ MAX_TRANSACTION → IsQuantized2 a →
      run_fraud_checks cfg u a = Except.ok () →
      a ≤ w.balance → w.balance ≤ MAX_BALANCE → IsQuantized2 w.balance →
      ¬ ((respCode (normalizeResponse raw) = "000"
          ∨ respCode (normalizeResponse raw) = "0000")
        ∧ (respStatus (normalizeResponse raw) = "delivered"
          ∨ respStatus (normalizeResponse raw) = "success")) →
      ¬ (respStatus (normalizeResponse raw) = "pending"
        ∨ respStatus (normalizeResponse raw) = "processing") →
      (purchase_airtime cfg u rid now w network phone a (Except.ok raw)).statusAfter
          = some "failed"
        ∧ (purchase_airtime cfg u rid now w network phone a (Except.ok raw)).walletAfter w
          = { balance := w.balance }) ∧
    (∀ (cfg : AppSettings) u rid (now : ℤ) (w : Wallet) network phone variation_code raw sid
        (plan : DataPlan),
      NETWORK_DATA_SERVICE_ID_MAP.lookup (lower network) = some sid →
      resolve_data_plan (lower network) variation_code = Except.ok plan →
      0 < plan.amount → plan.amount ≤ MAX_TRANSACTION → IsQuantized2 plan.amount →
      run_fraud_checks cfg u plan.amount = Except.ok () →
      plan.amount ≤ w.balance → w.balance ≤ MAX_BALANCE → IsQuantized2 w.balance →
      ¬ ((respCode (normalizeResponse raw) = "000"
          ∨ respCode (normalizeResponse raw) = "0000")
        ∧ (respStatus (normalizeResponse raw) = "delivered"
          ∨ respStatus (normalizeResponse raw) = "success")) →
      ¬ (respStatus (normalizeResponse raw) = "pending"
        ∨ respStatus (normalizeResponse raw) = "processing"
        ∨ respStatus (normalizeResponse raw) = "") →
      (purchase_data cfg u rid now w network phone variation_code
          (Except.ok raw)).statusAfter = some "failed"
        ∧ (purchase_data cfg u rid now w network phone variation_code
            (Except.ok raw)).walletAfter w = { balance := w.balance }) ∧
    (∀ (cfg : AppSettings) u rid (now : ℤ) (w : Wallet) disco mn mt (a : Money) phone
        vraw raw sid,
      DISCO_SERVICE_ID_MAP.lookup (strip (lower disco)) = some sid →
      (strip (lower mt) = "prepaid" ∨ strip (lower mt) = "postpaid") →
      0 < a → a ≤ MAX_TRANSACTION → IsQuantized2 a →
      strip mn ≠ "" → strip phone ≠ "" →
      run_fraud_checks cfg u a = Except.ok () →
      ((normalizeResponse vraw).code.getD "") = "000" →
      a ≤ w.balance → w.balance ≤ MAX_BALANCE → IsQuantized2 w.balance →
      ¬ (respCode (normalizeResponse raw) = "000"
        ∧ respStatus (normalizeResponse raw) = "delivered") →
      ¬ (respStatus (normalizeResponse raw) = "pending"
        ∨ respStatus (normalizeResponse raw) = "processing"
        ∨ respStatus (normalizeResponse raw) = "") →
      (purchase_electricity cfg u rid now w disco mn mt a phone (Except.ok vraw)
          (Except.ok raw)).statusAfter = some "failed"
        ∧ (purchase_electricity cfg u rid now w disco mn mt a phone (Except.ok vraw)
            (Except.ok raw)).walletAfter w = { balance := w.balance }) := by
  refine ⟨?_, ?_, ?_⟩
  · intro cfg u rid now w network phone a raw sid hl hpos haM hqa hfr hbal hbM hqb hns hnp
    exact airtime_run_failed hl hpos haM hqa hfr hbal hbM hqb hns hnp
  · intro cfg u rid now w network phone vc raw sid plan hl hp hpos haM hqa hfr hbal hbM hqb hns hnp
    exact data_run_failed hl hp hpos haM hqa hfr hbal hbM hqb hns hnp
  · intro cfg u rid now w disco mn mt a phone vraw raw sid hl hmt hpos haM hqa hmn hph hfr hv
      hbal hbM hqb hns hnp
    exact elec_run_failed hl hmt hpos haM hqa hmn hph hfr hv hbal hbM hqb hns hnp

/-- Witness for the amended C1 (Scenario B shape): a 500 airtime purchase
from a 500 balance gets an explicit provider failure (`code "016"`,
status `"failed"`): the record ends `failed` and the balance returns to
500. -/
theorem c1_sync_finalize_refund_amended_witness :
    (purchase_airtime cfgOff freshUser "VTU-1-1" 0 { balance := 500 } "mtn" "08030000000"
        500 (Except.ok { code := some "016", transactions_status := some "failed" })).statusAfter
      = some "failed"
    ∧ (purchase_airtime cfgOff freshUser "VTU-1-1" 0 { balance := 500 } "mtn" "08030000000"
        500 (Except.ok
          { code := some "016", transactions_status := some "failed" })).walletAfter
        { balance := 500 }
      = { balance := 500 } :=
  c1_sync_finalize_refund_amended.1 cfgOff freshUser "VTU-1-1" 0 { balance := 500 }
    "mtn" "08030000000" 500 { code := some "016", transactions_status := some "failed" }
    "mtn" (by decide) (by norm_num) (by norm_num [MAX_TRANSACTION]) ⟨50000, by norm_num⟩
    (run_fraud_checks_disabled _ _ rfl rfl) (by norm_num) (by norm_num [MAX_BALANCE])
    ⟨50000, by norm_num⟩ (by decide) (by decide)

/-- C5 counterexample: an electricity purchase whose provider response has
code `"0000"` and nested status `"delivered"` — which the claim says is
treated as success on every service line — is instead marked `failed`
(and refunded) by the electricity orchestrator, whose success test is
exactly `code == "000"` and status `== "delivered"`. -/
theorem c5_success_criterion_counterexample :
    (purchase_electricity cfgOff freshUser "ELEC-1-1" 0 { balance := 1000 } "ikedc"
        "12345678901" "prepaid" 500 "08030000000" (Except.ok { code := some "000" })
        (Except.ok
          { code := some "0000", transactions_status := some "delivered" })).statusAfter
      = some "failed"
    ∧ (purchase_electricity cfgOff freshUser "ELEC-1-1" 0 { balance := 1000 } "ikedc"
        "12345678901" "prepaid" 500 "08030000000" (Except.ok { code := some "000" })
        (Except.ok
          { code := some "0000", transactions_status := some "delivered" })).statusAfter
      ≠ some "completed" := by
  have h := @elec_run_failed cfgOff freshUser "ELEC-1-1" 0 { balance := 1000 } "ikedc"
    "12345678901" "prepaid" 500 "08030000000" { code := some "000" }
    { code := some "0000", transactions_status := some "delivered" } "ikeja-electric"
    (by decide) (Or.inl (by decide)) (by norm_num) (by norm_num [MAX_TRANSACTION])
    ⟨50000, by norm_num⟩ (by decide) (by decide) (run_fraud_checks_disabled _ _ rfl rfl)
    (by decide) (by norm_num) (by norm_num [MAX_BALANCE]) ⟨100000, by norm_num⟩
    (by decide) (by decide)
  refine ⟨h.1, ?_⟩
  rw [h.1]
  decide

/-- C5 (amended): a provider purchase response is treated as success
(record → `completed`) iff, for the airtime and data lines, its code is
`"000"`/`"0000"` and the nested transactions status is
`delivered`/`success`; for the electricity line the test is strictly
`code = "000"` and status `= "delivered"` (a `"0000"` code or a
`"success"` status is not success there). -/
theorem c5_success_criterion_amended :
    (∀ (cfg : AppSettings) u rid (now : ℤ) (w : Wallet) network phone (a : Money) raw sid,
      NETWORK_SERVICE_ID_MAP.lookup (strip (lower network)) = some sid →
      0 < a → a ≤ MAX_TRANSACTION → IsQuantized2 a →
      run_fraud_checks cfg u a = Except.ok () →
      a ≤ w.balance → w.balance ≤ MAX_BALANCE → IsQuantized2 w.balance →
      ((purchase_airtime cfg u rid now w network phone a (Except.ok raw)).statusAfter
          = some "completed"
        ↔ (respCode (normalizeResponse raw) = "000"
            ∨ respCode (normalizeResponse raw) = "0000")
          ∧ (respStatus (normalizeResponse raw) = "delivered"
            ∨ respStatus (normalizeResponse raw) = "success"))) ∧
    (∀ (cfg : AppSettings) u rid (now : ℤ) (w : Wallet) network phone variation_code raw sid
        (plan : DataPlan),
      NETWORK_DATA_SERVICE_ID_MAP.lookup (lower network) = some sid →
      resolve_data_plan (lower network) variation_code = Except.ok plan →
      0 < plan.amount → plan.amount ≤ MAX_TRANSACTION → IsQuantized2 plan.amount →
      run_fraud_checks cfg u plan.amount = Except.ok () →
      plan.amount ≤ w.balance → w.balance ≤ MAX_BALANCE → IsQuantized2 w.balance →
      ((purchase_data cfg u rid now w network phone variation_code
            (Except.ok raw)).statusAfter = some "completed"
        ↔ (respCode (normalizeResponse raw) = "000"
            ∨ respCode (normalizeResponse raw) = "0000")
          ∧ (respStatus (normalizeResponse raw) = "delivered"
            ∨ respStatus (normalizeResponse raw) = "success"))) ∧
    (∀ (cfg : AppSettings) u rid (now : ℤ) (w : Wallet) disco mn mt (a : Money) phone
        vraw raw sid,
      DISCO_SERVICE_ID_MAP.lookup (strip (lower disco)) = some sid →
      (strip (lower mt) = "prepaid" ∨ strip (lower mt) = "postpaid") →
      0 < a → a ≤ MAX_TRANSACTION → IsQuantized2 a →
      strip mn ≠ "" → strip phone ≠ "" →
      run_fraud_checks cfg u a = Except.ok () →
      ((normalizeResponse vraw).code.getD "") = "000" →
      a ≤ w.balance → w.balance ≤ MAX_BALANCE → IsQuantized2 w.balance →
      ((purchase_electricity cfg u rid now w disco mn mt a phone (Except.ok vraw)
            (Except.ok raw)).statusAfter = some "completed"
        ↔ respCode (normalizeResponse raw) = "000"
          ∧ respStatus (normalizeResponse raw) = "delivered")) := by
  refine ⟨?_, ?_, ?_⟩
  · intro cfg u rid now w network phone a raw sid hl hpos haM hqa hfr hbal hbM hqb
    constructor
    · intro hcomp
      by_contra hns
      by_cases hpend : respStatus (normalizeResponse raw) = "pending"
          ∨ respStatus (normalizeResponse raw) = "processing"
      · have h := @airtime_run_pending cfg u rid now w network phone a raw sid hl hpos haM hqa hfr hbal hbM hqb hns hpend
        rw [h.1] at hcomp
        simp at hcomp
      · have h := @airtime_run_failed cfg u rid now w network phone a raw sid hl hpos haM hqa hfr hbal hbM hqb hns hpend
        rw [h.1] at hcomp
        simp at hcomp
    · intro hsucc
      exact (airtime_run_completed hl hpos haM hqa hfr hbal hbM hqb hsucc).1
  · intro cfg u rid now w network phone vc raw sid plan hl hp hpos haM hqa hfr hbal hbM hqb
    constructor
    · intro hcomp
      by_contra hns
      by_cases hpend : respStatus (normalizeResponse raw) = "pending"
          ∨ respStatus (normalizeResponse raw) = "processing"
          ∨ respStatus (normalizeResponse raw) = ""
      · have h := @data_run_pending cfg u rid now w network phone vc raw sid plan hl hp hpos haM hqa hfr hbal hbM hqb hns hpend
        rw [h.1] at hcomp
        simp at hcomp
      · have h := @data_run_failed cfg u rid now w network phone vc raw sid plan hl hp hpos haM hqa hfr hbal hbM hqb hns hpend
        rw [h.1] at hcomp
        simp at hcomp
    · intro hsucc
      exact (data_run_completed hl hp hpos haM hqa hfr hbal hbM hqb hsucc).1
  · intro cfg u rid now w disco mn mt a phone vraw raw sid hl hmt hpos haM hqa hmn hph hfr
      hv hbal hbM hqb
    constructor
    · intro hcomp
      by_contra hns
      by_cases hpend : respStatus (normalizeResponse raw) = "pending"
          ∨ respStatus (normalizeResponse raw) = "processing"
          ∨ respStatus (normalizeResponse raw) = ""
      · have h := @elec_run_pending cfg u rid now w disco mn mt a phone vraw raw sid hl hmt hpos haM hqa hmn hph hfr hv hbal hbM hqb hns hpend
        rw [h.1] at hcomp
        simp at hcomp
      · have h := @elec_run_failed cfg u rid now w disco mn mt a phone vraw raw sid hl hmt hpos haM hqa hmn hph hfr hv hbal hbM hqb hns hpend
        rw [h.1] at hcomp
        simp at hcomp
    · intro hsucc
      exact (elec_run_completed hl hmt hpos haM hqa hmn hph hfr hv hbal hbM hqb hsucc).1

/-- Witness for the amended C5 (Scenario A shape): a delivered airtime
response with code `"000"` yields a `completed` record. -/
theorem c5_success_criterion_amended_witness :
    (purchase_airtime cfgOff freshUser "VTU-1-1" 0 { balance := 1000 } "mtn" "08030000000"
        500 (Except.ok
          { code := some "000", transactions_status := some "delivered" })).statusAfter
        = some "completed"
      ↔ (respCode (normalizeResponse
              { code := some "000", transactions_status := some "delivered" }) = "000"
          ∨ respCode (normalizeResponse
              { code := some "000", transactions_status := some "delivered" }) = "0000")
        ∧ (respStatus (normalizeResponse
              { code := some "000", transactions_status := some "delivered" }) = "delivered"
          ∨ respStatus (normalizeResponse
              { code := some "000", transactions_status := some "delivered" }) = "success") :=
  c5_success_criterion_amended.1 cfgOff freshUser "VTU-1-1" 0 { balance := 1000 }
    "mtn" "08030000000" 500 { code := some "000", transactions_status := some "delivered" }
    "mtn" (by decide) (by norm_num) (by norm_num [MAX_TRANSACTION]) ⟨50000, by norm_num⟩
    (run_fraud_checks_disabled _ _ rfl rfl) (by norm_num) (by norm_num [MAX_BALANCE])
    ⟨100000, by norm_num⟩

/-- A debited pending purchase record (amount 300) used in the
reconciliation counterexamples: its wallet holds 700, so the pre-purchase
balance was 1000. -/
def pendingTx300 : Txn :=
  { transaction_type := "purchase", amount := 300, description := "Airtime VTU",
    reference := some "VTU-1-1", status := "pending", timestamp := 0 }

/-- C2 counterexample: a requery sweep over a pending record whose
reference the provider reports as not found (transport 404) marks the
record `failed` but does NOT credit the wallet: the balance stays at the
debited 700 instead of returning to the pre-purchase 1000 as the claim
states (`verification.py` sets `tx.status = "failed"` and never touches
`Wallet`). -/
theorem c2_requery_notfound_refund_counterexample :
    ((sweepDB 0 (fun _ => RequeryNet.notFound)
        { wallet := { balance := 700 }, txs := [pendingTx300] }).1.txs.map Txn.status
      = ["failed"])
    ∧ (sweepDB 0 (fun _ => RequeryNet.notFound)
        { wallet := { balance := 700 }, txs := [pendingTx300] }).1.wallet.balance = 700
    ∧ (sweepDB 0 (fun _ => RequeryNet.notFound)
        { wallet := { balance := 700 }, txs := [pendingTx300] }).1.wallet.balance
      ≠ 700 + pendingTx300.amount := by
  have hsel : sweepSelect 0 pendingTx300 = true := by decide
  have hsv : Transaction.save { pendingTx300 with status := "failed" }
      = Except.ok { pendingTx300 with status := "failed", amount := quantize2 300 } := by
    simp [Transaction.save, Transaction.clean, pendingTx300, MAX_TRANSACTION]
    norm_num
  refine ⟨?_, ?_, ?_⟩
  · simp [sweepDB, recheck_pending_vtu, hsel, recheck_one,
      check_and_get_transaction_status, hsv]
  · simp [sweepDB, recheck_pending_vtu]
  · simp [sweepDB, recheck_pending_vtu, pendingTx300]

/-- C2 (amended): for every pending purchase record selected by the
requery sweep whose provider requery returns not-found (404), the record
transitions to `failed`, but the wallet is NOT credited back: the sweep
never reads or writes any wallet, so the balance stays at its debited
value.  Stated as: the sweep acts record-wise via `sweepStep`, a
not-found pending record steps to `failed`, and the wallet component of
the database is unchanged by any sweep. -/
theorem c2_requery_notfound_marks_failed_no_refund :
    (∀ cutoff oracle (txs : List Txn),
      (recheck_pending_vtu cutoff oracle txs).1 = txs.map (sweepStep cutoff oracle)) ∧
    (∀ cutoff oracle (t : Txn),
      sweepSelect cutoff t = true →
      oracle (t.reference.getD "") = RequeryNet.notFound →
      0 < t.amount → t.amount ≤ MAX_TRANSACTION →
      (sweepStep cutoff oracle t).status = "failed") ∧
    (∀ cutoff oracle (db : DB), (sweepDB cutoff oracle db).1.wallet = db.wallet) := by
  refine ⟨recheck_pending_vtu_eq_map, ?_, ?_⟩
  · intro cutoff oracle t hsel ho hpos haM
    simp only [sweepStep, hsel, if_true, recheck_one, ho, check_and_get_transaction_status]
    split
    · rename_i tx2 hsv
      have h2 := transaction_save_ok_eq hsv
      subst h2
      simp
    · rename_i e hsv
      have hb := Transaction.save_error_amount hsv
      simp only at hb
      rcases hb with hb | hb
      · exact absurd hb (not_le.mpr hpos)
      · exact absurd hb (not_lt.mpr haM)
  · intro cutoff oracle db
    rfl

/-- Witness for the amended C2: the concrete pending record steps to
`failed` under a not-found requery answer. -/
theorem c2_requery_notfound_marks_failed_no_refund_witness :
    (sweepStep 0 (fun _ => RequeryNet.notFound) pendingTx300).status = "failed" :=
  c2_requery_notfound_marks_failed_no_refund.2.1 0 (fun _ => RequeryNet.notFound)
    pendingTx300 (by decide) rfl (by norm_num [pendingTx300])
    (by norm_num [pendingTx300, MAX_TRANSACTION])

theorem vtpass_webhook_wallet (sig : SigCheck) (data : WebhookData) (w : Wallet)
    (txs : List Txn) : (vtpass_webhook sig data w txs).1 = w := by
  simp only [vtpass_webhook]
  split
  · rfl
  · split
    · rfl
    · split
      · rfl
      · split <;> rfl

theorem vtpass_webhook_processed {sig : SigCheck} {data : WebhookData} {w : Wallet}
    {txs : List Txn} {tx : Txn} {ref : String}
    (hsig : sig ≠ some false)
    (href : orStr data.request_id (orStr data.requestId data.reference) = some ref)
    (hrefne : ref ≠ "")
    (hfind : txs.find? (fun t => t.reference = some ref) = some tx)
    (hpos : 0 < tx.amount) (haM : tx.amount ≤ MAX_TRANSACTION)
    (hq : IsQuantized2 tx.amount) :
    vtpass_webhook sig data w txs
      = (w, txs.map (fun t => if t.reference = some ref
            then webhookUpdatedTxn data tx else t),
         WebhookOutcome.processed) := by
  have htr : truthy (orStr data.request_id (orStr data.requestId data.reference)) = true := by
    rw [href]
    simp [truthy, hrefne]
  have htr2 : truthy (some ref) = true := by
    simp [truthy, hrefne]
  have hamt := webhookUpdatedTxn_amount data tx
  have hsv : Transaction.save (webhookUpdatedTxn data tx)
      = Except.ok (webhookUpdatedTxn data tx) :=
    transaction_save_fix (by rw [hamt]; exact hpos) (by rw [hamt]; exact haM)
      (by rw [hamt]; exact hq)
  rcases sig with _ | b
  · simp only [vtpass_webhook, htr, htr2, href, Option.getD_some, hfind, hsv]
    simp
  · cases b
    · exact absurd rfl hsig
    · simp only [vtpass_webhook, htr, htr2, href, Option.getD_some, hfind, hsv]
      simp

/-- C3 counterexample: a webhook push with status `"failed"` for a
pending 300 purchase record marks the record `failed` but leaves the
wallet at the debited 700 — it is NOT credited back to the pre-purchase
1000, contrary to the claim (the handler never touches the wallet). -/
theorem c3_webhook_failed_refund_counterexample :
    ((vtpass_webhook none { request_id := some "VTU-1-1", status := some "failed" }
        { balance := 700 } [pendingTx300]).2.1.map Txn.status = ["failed"])
    ∧ (vtpass_webhook none { request_id := some "VTU-1-1", status := some "failed" }
        { balance := 700 } [pendingTx300]).1.balance = 700
    ∧ (vtpass_webhook none { request_id := some "VTU-1-1", status := some "failed" }
        { balance := 700 } [pendingTx300]).1.balance ≠ 700 + pendingTx300.amount := by
  have h := @vtpass_webhook_processed none
    { request_id := some "VTU-1-1", status := some "failed" }
    { balance := 700 } [pendingTx300] pendingTx300 "VTU-1-1" (by simp) (by decide) (by decide) (by simp [pendingTx300])
    (by norm_num [pendingTx300]) (by norm_num [pendingTx300, MAX_TRANSACTION])
    ⟨30000, by norm_num [pendingTx300]⟩
  rw [h]
  have hupd : webhookUpdatedTxn { request_id := some "VTU-1-1", status := some "failed" }
      pendingTx300 = { pendingTx300 with status := "failed" } := by
    simp only [webhookUpdatedTxn, Option.getD_some]
    rw [if_neg (by decide), if_pos (by decide)]
  rw [hupd]
  refine ⟨?_, rfl, ?_⟩
  · simp [pendingTx300]
  · simp [pendingTx300]

/-- C3 (amended): a webhook delivery whose pushed status maps to `failed`
and resolves to a record (pending or not) sets the record to `failed`
and returns 200-processed, but it does NOT credit the wallet back: the
handler never reads or writes the wallet, so the balance is unchanged
(the synchronous refund rule is not applied on this path). -/
theorem c3_webhook_failed_sets_failed_without_refund :
    (∀ (sig : SigCheck) (data : WebhookData) (w : Wallet) (txs : List Txn),
      (vtpass_webhook sig data w txs).1 = w) ∧
    (∀ (sig : SigCheck) (data : WebhookData) (w : Wallet) (txs : List Txn) (tx : Txn)
        (ref : String),
      sig ≠ some false →
      orStr data.request_id (orStr data.requestId data.reference) = some ref →
      ref ≠ "" →
      txs.find? (fun t => t.reference = some ref) = some tx →
      tx.status = "pending" →
      (lower (data.status.getD "") = "failed" ∨ lower (data.status.getD "") = "reversed") →
      0 < tx.amount → tx.amount ≤ MAX_TRANSACTION → IsQuantized2 tx.amount →
      vtpass_webhook sig data w txs
        = (w, txs.map (fun t => if t.reference = some ref
              then { tx with status := "failed" } else t),
           WebhookOutcome.processed)) := by
  refine ⟨vtpass_webhook_wallet, ?_⟩
  intro sig data w txs tx ref hsig href hrefne hfind hpend hst hpos haM hq
  have hupd : webhookUpdatedTxn data tx = { tx with status := "failed" } := by
    simp only [webhookUpdatedTxn]
    rcases hst with hst | hst <;> simp [hst]
  rw [vtpass_webhook_processed hsig href hrefne hfind hpos haM hq, hupd]

/-- Witness for the amended C3: a concrete failed-status webhook marks the
pending record failed with the wallet untouched. -/
theorem c3_webhook_failed_sets_failed_without_refund_witness :
    vtpass_webhook none { request_id := some "VTU-1-1", status := some "reversed" }
        { balance := 700 } [pendingTx300]
      = ({ balance := 700 },
         [pendingTx300].map (fun t => if t.reference = some "VTU-1-1"
            then { pendingTx300 with status := "failed" } else t),
         WebhookOutcome.processed) :=
  c3_webhook_failed_sets_failed_without_refund.2 none
    { request_id := some "VTU-1-1", status := some "reversed" } { balance := 700 }
    [pendingTx300] pendingTx300 "VTU-1-1" (by simp) (by decide) (by decide)
    (by simp [pendingTx300]) rfl (Or.inr (by decide)) (by norm_num [pendingTx300])
    (by norm_num [pendingTx300, MAX_TRANSACTION]) ⟨30000, by norm_num [pendingTx300]⟩

/-- A terminal (completed) 300 purchase record used in the C4
counterexample. -/
def completedTx300 : Txn :=
  { transaction_type := "purchase", amount := 300, description := "Airtime VTU",
    reference := some "VTU-1-1", status := "completed", timestamp := 0 }

/-- C4 counterexample: a webhook delivery with an unrecognized pushed
status (`"refund_in_progress"`) for a record already `completed` is NOT a
no-op: the handler overwrites the terminal status back to `pending`. -/
theorem c4_terminal_noop_counterexample :
    completedTx300.status = "completed"
    ∧ ((vtpass_webhook none
        { request_id := some "VTU-1-1", status := some "refund_in_progress" }
        { balance := 700 } [completedTx300]).2.1.map Txn.status = ["pending"]) := by
  refine ⟨rfl, ?_⟩
  have h := @vtpass_webhook_processed none
    { request_id := some "VTU-1-1", status := some "refund_in_progress" }
    { balance := 700 } [completedTx300] completedTx300 "VTU-1-1" (by simp) (by decide) (by decide) (by simp [completedTx300])
    (by norm_num [completedTx300]) (by norm_num [completedTx300, MAX_TRANSACTION])
    ⟨30000, by norm_num [completedTx300]⟩
  rw [h]
  have hupd : webhookUpdatedTxn
      { request_id := some "VTU-1-1", status := some "refund_in_progress" }
      completedTx300 = { completedTx300 with status := "pending" } := by
    simp only [webhookUpdatedTxn, Option.getD_some]
    rw [if_neg (by decide), if_neg (by decide)]
  rw [hupd]
  simp [completedTx300]

/-- C4 (amended): terminal records are safe from the requery sweep — its
queryset selects only `pending` records, so a terminal record passes
through a sweep unchanged — and neither reconciliation path ever changes
the wallet balance; but the webhook handler does NOT respect terminal
statuses: it overwrites the status of whatever record the reference
resolves to (for an unrecognized pushed status, even back to `pending`),
so re-delivery to a terminal record is only balance-idempotent, not
status-idempotent. -/
theorem c4_terminal_records_and_idempotency :
    (∀ cutoff oracle (txs : List Txn),
      (recheck_pending_vtu cutoff oracle txs).1 = txs.map (sweepStep cutoff oracle)) ∧
    (∀ cutoff oracle (t : Txn), t.status ≠ "pending" → sweepStep cutoff oracle t = t) ∧
    (∀ (sig : SigCheck) (data : WebhookData) (w : Wallet) (txs : List Txn),
      (vtpass_webhook sig data w txs).1 = w) ∧
    (∀ cutoff oracle (db : DB), (sweepDB cutoff oracle db).1.wallet = db.wallet) ∧
    (∀ (sig : SigCheck) (data : WebhookData) (w : Wallet) (txs : List Txn) (tx : Txn)
        (ref : String),
      sig ≠ some false →
      orStr data.request_id (orStr data.requestId data.reference) = some ref →
      ref ≠ "" →
      txs.find? (fun t => t.reference = some ref) = some tx →
      ¬ (lower (data.status.getD "") = "delivered"
        ∨ lower (data.status.getD "") = "success"
        ∨ lower (data.status.getD "") = "successful") →
      ¬ (lower (data.status.getD "") = "failed"
        ∨ lower (data.status.getD "") = "reversed") →
      0 < tx.amount → tx.amount ≤ MAX_TRANSACTION → IsQuantized2 tx.amount →
      vtpass_webhook sig data w txs
        = (w, txs.map (fun t => if t.reference = some ref
              then { tx with status := "pending" } else t),
           WebhookOutcome.processed)) := by
  refine ⟨recheck_pending_vtu_eq_map, ?_, vtpass_webhook_wallet, ?_, ?_⟩
  · intro cutoff oracle t h
    have hb : (t.status == "pending") = false := beq_eq_false_iff_ne.mpr h
    simp [sweepStep, sweepSelect, hb]
  · intro cutoff oracle db
    rfl
  · intro sig data w txs tx ref hsig href hrefne hfind hnd hnf hpos haM hq
    have hupd : webhookUpdatedTxn data tx = { tx with status := "pending" } := by
      simp only [webhookUpdatedTxn]
      rw [if_neg hnd, if_neg hnf]
    rw [vtpass_webhook_processed hsig href hrefne hfind hpos haM hq, hupd]

/-- Witness for the amended C4: a completed record passes through a sweep
step unchanged. -/
theorem c4_terminal_records_and_idempotency_witness :
    sweepStep 0 (fun _ => RequeryNet.notFound) completedTx300 = completedTx300 :=
  c4_terminal_records_and_idempotency.2.1 0 (fun _ => RequeryNet.notFound)
    completedTx300 (by decide)

end VTU